import Mathlib

/- Verification development for the halohome astro-core crate: shallow
embeddings of `src/astro-core/src/lib.rs` (angles, calendar, delta-T, horizon
and aspect lines) and `src/astro-core/src/scout.rs` (scoring, ranking,
geometry, grids), with theorems about the embedded functions.  Machine floats
are idealized as exact real (or rational) arithmetic; `f64::INFINITY`
sentinels are modeled with `EReal`. -/

open Real

/-- The `DEG_TO_RAD` constant from `lib.rs`. -/
noncomputable def DEG_TO_RAD : ℝ := Real.pi / 180

/-- The `RAD_TO_DEG` constant from `lib.rs`. -/
noncomputable def RAD_TO_DEG : ℝ := 180 / Real.pi

/-- Rust `f64::%` is the IEEE truncated remainder: `a - b * trunc (a / b)`. -/
noncomputable def rustRem (a b : ℝ) : ℝ :=
  a - b * (if 0 ≤ a / b then (⌊a / b⌋ : ℝ) else (⌈a / b⌉ : ℝ))

/-- The `normalize_angle` from `lib.rs`: `((angle % 2π) + 2π) % 2π`, lands in `[0, 2π)`. -/
noncomputable def normalize_angle (angle : ℝ) : ℝ :=
  let two_pi := 2 * Real.pi
  rustRem (rustRem angle two_pi + two_pi) two_pi

/-- IEEE `atan2(y, x)` (signed zeros identified), used to model `f64::atan2`. -/
noncomputable def atan2 (y x : ℝ) : ℝ :=
  if 0 < x then Real.arctan (y / x)
  else if x < 0 ∧ 0 ≤ y then Real.arctan (y / x) + Real.pi
  else if x < 0 then Real.arctan (y / x) - Real.pi
  else if 0 < y then Real.pi / 2
  else if y < 0 then -(Real.pi / 2)
  else 0

/-- The `normalize_signed_angle` from `lib.rs`: `atan2 (sin angle) (cos angle)`, lands in `(-π, π]`. -/
noncomputable def normalize_signed_angle (angle : ℝ) : ℝ :=
  atan2 (Real.sin angle) (Real.cos angle)

/-- The `calculate_mc_longitude` from `lib.rs`. -/
noncomputable def calculate_mc_longitude (right_ascension gmst : ℝ) : ℝ :=
  let longitude_rad := normalize_angle (right_ascension - gmst)
  let longitude_deg := longitude_rad * RAD_TO_DEG
  if longitude_deg > 180 then longitude_deg - 360 else longitude_deg

/-- The `calculate_ic_longitude` from `lib.rs`. -/
noncomputable def calculate_ic_longitude (right_ascension gmst : ℝ) : ℝ :=
  let longitude_rad := normalize_angle (right_ascension + Real.pi - gmst)
  let longitude_deg := longitude_rad * RAD_TO_DEG
  if longitude_deg > 180 then longitude_deg - 360 else longitude_deg

-- rustRem facts

lemma rustRem_spec (a b : ℝ) (hb : 0 < b) :
    ∃ k : ℤ, rustRem a b = a - b * k ∧ -b < rustRem a b ∧ rustRem a b < b := by
  unfold rustRem
  by_cases h : 0 ≤ a / b
  · refine ⟨⌊a / b⌋, by rw [if_pos h], ?_, ?_⟩
    · rw [if_pos h]
      have h1 : (⌊a / b⌋ : ℝ) ≤ a / b := Int.floor_le _
      have h2 : 0 ≤ a - b * ⌊a / b⌋ := by
        have := mul_le_mul_of_nonneg_left h1 hb.le
        rw [mul_div_cancel₀ _ hb.ne.symm] at this
        linarith
      linarith
    · rw [if_pos h]
      have h1 : a / b < (⌊a / b⌋ : ℝ) + 1 := Int.lt_floor_add_one _
      have := mul_lt_mul_of_pos_left h1 hb
      rw [mul_div_cancel₀ _ hb.ne.symm] at this
      linarith [this]
  · refine ⟨⌈a / b⌉, by rw [if_neg h], ?_, ?_⟩
    · rw [if_neg h]
      have h1 : (⌈a / b⌉ : ℝ) < a / b + 1 := by
        have := Int.ceil_lt_add_one (a / b)
        linarith
      have := mul_lt_mul_of_pos_left h1 hb
      rw [mul_add, mul_div_cancel₀ _ hb.ne.symm] at this
      linarith
    · rw [if_neg h]
      have h1 : a / b ≤ (⌈a / b⌉ : ℝ) := Int.le_ceil _
      have := mul_le_mul_of_nonneg_left h1 hb.le
      rw [mul_div_cancel₀ _ hb.ne.symm] at this
      have hneg : a / b < 0 := lt_of_not_le h
      have : a < 0 := by
        by_contra hc
        exact h (div_nonneg (le_of_not_lt hc) hb.le)
      linarith [hb, this]

lemma rustRem_nonneg_spec (a b : ℝ) (hb : 0 < b) (ha : 0 ≤ a) :
    rustRem a b = a - b * ⌊a / b⌋ ∧ 0 ≤ rustRem a b ∧ rustRem a b < b := by
  have h : 0 ≤ a / b := div_nonneg ha hb.le
  unfold rustRem
  rw [if_pos h]
  refine ⟨rfl, ?_, ?_⟩
  · have h1 : (⌊a / b⌋ : ℝ) ≤ a / b := Int.floor_le _
    have := mul_le_mul_of_nonneg_left h1 hb.le
    rw [mul_div_cancel₀ _ hb.ne.symm] at this
    linarith
  · have h1 : a / b < (⌊a / b⌋ : ℝ) + 1 := Int.lt_floor_add_one _
    have := mul_lt_mul_of_pos_left h1 hb
    rw [mul_div_cancel₀ _ hb.ne.symm] at this
    linarith

/-- The `normalize_angle` lands in `[0, 2π)` and differs from its input by a multiple of `2π`. -/
lemma normalize_angle_spec (θ : ℝ) :
    0 ≤ normalize_angle θ ∧ normalize_angle θ < 2 * Real.pi ∧
    ∃ k : ℤ, normalize_angle θ = θ + 2 * Real.pi * k := by
  have hb : 0 < 2 * Real.pi := by positivity
  obtain ⟨k1, hk1, hlo1, hhi1⟩ := rustRem_spec θ (2 * Real.pi) hb
  have hpos : 0 ≤ rustRem θ (2 * Real.pi) + 2 * Real.pi := by linarith
  obtain ⟨heq, hlo2, hhi2⟩ :=
    rustRem_nonneg_spec (rustRem θ (2 * Real.pi) + 2 * Real.pi) (2 * Real.pi) hb hpos
  unfold normalize_angle
  refine ⟨by rw [heq] at hlo2 ⊢; exact hlo2, by rw [heq] at hhi2 ⊢; exact hhi2, ?_⟩
  refine ⟨-k1 + 1 - ⌊(rustRem θ (2 * Real.pi) + 2 * Real.pi) / (2 * Real.pi)⌋, ?_⟩
  rw [heq, hk1]
  push_cast
  ring

/-- The `calculate_mc_longitude` is in `(-180, 180]` and is `(ra - gmst)·180/π` up to `360·k`. -/
lemma mc_longitude_spec (ra gmst : ℝ) :
    -180 < calculate_mc_longitude ra gmst ∧ calculate_mc_longitude ra gmst ≤ 180 ∧
    ∃ k : ℤ, calculate_mc_longitude ra gmst = (ra - gmst) * (180 / Real.pi) + 360 * k := by
  obtain ⟨h0, h2, k, hk⟩ := normalize_angle_spec (ra - gmst)
  simp only [calculate_mc_longitude, RAD_TO_DEG]
  have hdeg0 : 0 ≤ normalize_angle (ra - gmst) * (180 / Real.pi) := by positivity
  have hdeg2 : normalize_angle (ra - gmst) * (180 / Real.pi) < 360 := by
    have hppos : (0 : ℝ) < 180 / Real.pi := by positivity
    calc normalize_angle (ra - gmst) * (180 / Real.pi)
        < (2 * Real.pi) * (180 / Real.pi) := by
          exact mul_lt_mul_of_pos_right h2 hppos
      _ = 360 := by field_simp; ring
  have hconv : normalize_angle (ra - gmst) * (180 / Real.pi)
      = (ra - gmst) * (180 / Real.pi) + 360 * k := by
    rw [hk]
    have hpi : Real.pi ≠ 0 := Real.pi_ne_zero
    field_simp
    ring
  split_ifs with h
  · exact ⟨by linarith, by linarith, k - 1, by rw [hconv]; push_cast; ring⟩
  · exact ⟨by linarith, by linarith, k, by rw [hconv]⟩

lemma ic_longitude_spec (ra gmst : ℝ) :
    -180 < calculate_ic_longitude ra gmst ∧ calculate_ic_longitude ra gmst ≤ 180 ∧
    ∃ k : ℤ, calculate_ic_longitude ra gmst
      = (ra - gmst) * (180 / Real.pi) + 180 + 360 * k := by
  obtain ⟨h0, h2, k, hk⟩ := normalize_angle_spec (ra + Real.pi - gmst)
  simp only [calculate_ic_longitude, RAD_TO_DEG]
  have hdeg0 : 0 ≤ normalize_angle (ra + Real.pi - gmst) * (180 / Real.pi) := by positivity
  have hdeg2 : normalize_angle (ra + Real.pi - gmst) * (180 / Real.pi) < 360 := by
    have hppos : (0 : ℝ) < 180 / Real.pi := by positivity
    calc normalize_angle (ra + Real.pi - gmst) * (180 / Real.pi)
        < (2 * Real.pi) * (180 / Real.pi) := mul_lt_mul_of_pos_right h2 hppos
      _ = 360 := by field_simp; ring
  have hconv : normalize_angle (ra + Real.pi - gmst) * (180 / Real.pi)
      = (ra - gmst) * (180 / Real.pi) + 180 + 360 * k := by
    rw [hk]
    have hpi : Real.pi ≠ 0 := Real.pi_ne_zero
    field_simp
    ring
  split_ifs with h
  · exact ⟨by linarith, by linarith, k - 1, by rw [hconv]; push_cast; ring⟩
  · exact ⟨by linarith, by linarith, k, by rw [hconv]⟩

/-- C4: for every right ascension and GMST, the MC and IC longitudes returned by
`calculate_mc_longitude` and `calculate_ic_longitude` are exactly 180° apart
along the shortest arc mod 360 (so in particular within the claimed ±1°). -/
theorem mc_ic_shortest_arc (ra gmst : ℝ) :
    min |calculate_mc_longitude ra gmst - calculate_ic_longitude ra gmst|
      (360 - |calculate_mc_longitude ra gmst - calculate_ic_longitude ra gmst|) = 180 := by
  obtain ⟨hmc1, hmc2, k1, hk1⟩ := mc_longitude_spec ra gmst
  obtain ⟨hic1, hic2, k2, hk2⟩ := ic_longitude_spec ra gmst
  have hdiff : calculate_mc_longitude ra gmst - calculate_ic_longitude ra gmst
      = -180 + 360 * ((k1 : ℝ) - k2) := by rw [hk1, hk2]; ring
  have hbound : -360 < calculate_mc_longitude ra gmst - calculate_ic_longitude ra gmst ∧
      calculate_mc_longitude ra gmst - calculate_ic_longitude ra gmst < 360 := by
    constructor <;> linarith
  have hk : (k1 : ℝ) - k2 = 0 ∨ (k1 : ℝ) - k2 = 1 := by
    have h1 : -360 < -180 + 360 * ((k1 : ℝ) - k2) := by rw [← hdiff]; exact hbound.1
    have h2 : -180 + 360 * ((k1 : ℝ) - k2) < 360 := by rw [← hdiff]; exact hbound.2
    have hr1 : (-1 : ℝ) < ((k1 - k2 : ℤ) : ℝ) := by push_cast; linarith
    have hr2 : ((k1 - k2 : ℤ) : ℝ) < 2 := by push_cast; linarith
    have hi1 : (-1 : ℤ) < k1 - k2 := by exact_mod_cast hr1
    have hi2 : k1 - k2 < 2 := by exact_mod_cast hr2
    have hcases : k1 - k2 = 0 ∨ k1 - k2 = 1 := by omega
    rcases hcases with h | h
    · left
      have hcast := congrArg (Int.cast : ℤ → ℝ) h
      push_cast at hcast; linarith
    · right
      have hcast := congrArg (Int.cast : ℤ → ℝ) h
      push_cast at hcast; linarith
  rcases hk with h | h
  · rw [hdiff, h]; norm_num
  · rw [hdiff, h]; norm_num

/- Section: lib.rs: planets, horizon, aspect lines -/

/-- Rust `f64::clamp(lo, hi)`. -/
noncomputable def rustClamp (x lo hi : ℝ) : ℝ := min (max x lo) hi

/-- Rust `f64::rem_euclid`: the truncated remainder shifted into `[0, |m|)`. -/
noncomputable def rustRemEuclid (x m : ℝ) : ℝ :=
  let r := rustRem x m
  if r < 0 then r + |m| else r

/-- The `Planet` enum from `lib.rs`. -/
inductive Planet
  | Sun | Moon | Mercury | Venus | Mars | Jupiter
  | Saturn | Uranus | Neptune | Pluto | Chiron | NorthNode
deriving DecidableEq

/-- The `planet_to_string` from `lib.rs`. -/
def planet_to_string : Planet → String
  | .Sun => "Sun"
  | .Moon => "Moon"
  | .Mercury => "Mercury"
  | .Venus => "Venus"
  | .Mars => "Mars"
  | .Jupiter => "Jupiter"
  | .Saturn => "Saturn"
  | .Uranus => "Uranus"
  | .Neptune => "Neptune"
  | .Pluto => "Pluto"
  | .Chiron => "Chiron"
  | .NorthNode => "NorthNode"

/-- The `get_planet_color` from `lib.rs`. -/
def get_planet_color : Planet → String
  | .Sun => "#FFD700"
  | .Moon => "#C0C0C0"
  | .Mercury => "#B8860B"
  | .Venus => "#FF69B4"
  | .Mars => "#DC143C"
  | .Jupiter => "#9400D3"
  | .Saturn => "#8B4513"
  | .Uranus => "#00CED1"
  | .Neptune => "#4169E1"
  | .Pluto => "#2F4F4F"
  | .Chiron => "#FF8C00"
  | .NorthNode => "#9932CC"

/-- The `PlanetaryPosition` struct from `lib.rs`. -/
structure PlanetaryPosition where
  planet : Planet
  right_ascension : ℝ
  declination : ℝ
  ecliptic_longitude : ℝ

/-- The `GlobePoint` struct from `lib.rs`. -/
structure GlobePoint where
  lat : ℝ
  lng : ℝ

/-- The `AspectInfo` struct from `lib.rs`. -/
structure AspectInfo where
  angle_deg : ℝ
  name : String
  is_harmonious : Bool

/-- The `ASPECTS` constant from `lib.rs`. -/
noncomputable def ASPECTS : List AspectInfo :=
  [⟨120, "trine", true⟩, ⟨60, "sextile", true⟩, ⟨90, "square", false⟩]

/-- The `AspectLineResult` struct from `lib.rs`. -/
structure AspectLineResult where
  planet : String
  angle : String
  aspect_type : String
  is_harmonious : Bool
  points : List GlobePoint
  color : String

/-- The `ecliptic_to_equatorial` from `lib.rs` (robust form, multiplied by cos β). -/
noncomputable def ecliptic_to_equatorial (ecl_lon ecl_lat obliquity : ℝ) : ℝ × ℝ :=
  let sin_lon := Real.sin ecl_lon
  let cos_lon := Real.cos ecl_lon
  let sin_lat := Real.sin ecl_lat
  let cos_lat := Real.cos ecl_lat
  let sin_eps := Real.sin obliquity
  let cos_eps := Real.cos obliquity
  let y := sin_lon * cos_eps * cos_lat - sin_lat * sin_eps
  let x := cos_lon * cos_lat
  let ra := normalize_angle (atan2 y x)
  let dec := Real.arcsin (sin_lat * cos_eps + cos_lat * sin_eps * sin_lon)
  (ra, dec)

/-- The `calculate_horizon_latitude` from `lib.rs` (EPS = 1e-9). -/
noncomputable def calculate_horizon_latitude
    (right_ascension declination gmst longitude_deg : ℝ) : Option ℝ :=
  let longitude_rad := longitude_deg * DEG_TO_RAD
  let hour_angle := normalize_signed_angle (gmst + longitude_rad - right_ascension)
  let sin_delta := Real.sin declination
  let cos_delta := Real.cos declination
  let cos_h := Real.cos hour_angle
  if |sin_delta| < 1e-9 ∧ |cos_h| < 1e-9 then none
  else if |sin_delta| < 1e-9 then none
  else
    some (rustClamp (Real.arctan ((-cos_delta * cos_h) / sin_delta) * RAD_TO_DEG)
      (-90) 90)

/-- The `is_all_latitudes_horizon` from `lib.rs`. -/
noncomputable def is_all_latitudes_horizon
    (right_ascension declination gmst longitude_deg : ℝ) : Bool :=
  let longitude_rad := longitude_deg * DEG_TO_RAD
  let hour_angle := normalize_signed_angle (gmst + longitude_rad - right_ascension)
  decide (|Real.sin declination| < 1e-9) && decide (|Real.cos hour_angle| < 1e-9)

/-- The `is_rising` from `lib.rs`. -/
noncomputable def is_rising (right_ascension gmst longitude_deg : ℝ) : Bool :=
  let longitude_rad := longitude_deg * DEG_TO_RAD
  let hour_angle := normalize_signed_angle (gmst + longitude_rad - right_ascension)
  decide (Real.sin hour_angle < 0)

lemma horizon_none_of_sin_small (ra dec gmst lon : ℝ)
    (h : |Real.sin dec| < 1e-9) :
    calculate_horizon_latitude ra dec gmst lon = none := by
  simp only [calculate_horizon_latitude]
  by_cases h2 : |Real.cos (normalize_signed_angle (gmst + lon * DEG_TO_RAD - ra))| < 1e-9
  · rw [if_pos ⟨h, h2⟩]
  · rw [if_neg (fun hc => h2 hc.2), if_pos h]

/-- C2: whenever `is_all_latitudes_horizon` returns true,
`calculate_horizon_latitude` returns the `None` sentinel; and whenever
`|sin δ| < 1e-9` (which covers the predicate-false near-equatorial case),
`calculate_horizon_latitude` also returns `None` — never an exception. -/
theorem horizon_none_cases (ra dec gmst lon : ℝ) :
    (is_all_latitudes_horizon ra dec gmst lon = true →
      calculate_horizon_latitude ra dec gmst lon = none) ∧
    (|Real.sin dec| < 1e-9 →
      calculate_horizon_latitude ra dec gmst lon = none) := by
  refine ⟨fun h => ?_, fun h => horizon_none_of_sin_small ra dec gmst lon h⟩
  simp only [is_all_latitudes_horizon, Bool.and_eq_true, decide_eq_true_eq] at h
  exact horizon_none_of_sin_small ra dec gmst lon h.1

theorem horizon_none_cases_witness :
    calculate_horizon_latitude 0 0 0 0 = none :=
  (horizon_none_cases 0 0 0 0).2
    (by rw [Real.sin_zero, abs_zero]; norm_num)

/-- The MC/IC latitude sampling loop `(-89..=89).step_by(2)`: 90 samples. -/
noncomputable def aspect_line_lats : List ℝ :=
  (List.range 90).map (fun i => -89 + 2 * (i : ℝ))

/-- The ASC/DSC longitude sampling loop: `lng` from −180 while `≤ 180`,
stepping `longitude_step`.  For a positive step it visits exactly
`-180 + k·step` for `0 ≤ k ≤ ⌊360/step⌋`; for a non-positive step the source
loop would never terminate, so the model is restricted to positive steps. -/
noncomputable def sample_longitudes (longitude_step : ℝ) : List ℝ :=
  if 0 < longitude_step then
    (List.range (⌊(360 : ℝ) / longitude_step⌋.toNat + 1)).map
      (fun k => -180 + (k : ℝ) * longitude_step)
  else []

/-- The `calculate_aspect_to_mc` from `lib.rs`. -/
noncomputable def calculate_aspect_to_mc (position : PlanetaryPosition)
    (aspect : AspectInfo) (gmst : ℝ) (direction : ℤ) (obliquity : ℝ) :
    AspectLineResult :=
  let ecl_shift := aspect.angle_deg * (direction : ℝ)
  let shifted_ecl_lon := rustRemEuclid (position.ecliptic_longitude + ecl_shift) 360
  let shifted_ecl_lon_rad := shifted_ecl_lon * DEG_TO_RAD
  let shifted_ra := (ecliptic_to_equatorial shifted_ecl_lon_rad 0 obliquity).1
  let mc_longitude := calculate_mc_longitude shifted_ra gmst
  let direction_suffix := if direction > 0 then "+" else "-"
  ⟨planet_to_string position.planet, "MC", aspect.name ++ direction_suffix,
   aspect.is_harmonious,
   aspect_line_lats.map (fun lat => ⟨lat, mc_longitude⟩),
   if aspect.is_harmonious then get_planet_color position.planet ++ "80"
   else get_planet_color position.planet ++ "50"⟩

/-- The `calculate_aspect_to_ic` from `lib.rs`. -/
noncomputable def calculate_aspect_to_ic (position : PlanetaryPosition)
    (aspect : AspectInfo) (gmst : ℝ) (direction : ℤ) (obliquity : ℝ) :
    AspectLineResult :=
  let ecl_shift := aspect.angle_deg * (direction : ℝ)
  let shifted_ecl_lon := rustRemEuclid (position.ecliptic_longitude + ecl_shift) 360
  let shifted_ecl_lon_rad := shifted_ecl_lon * DEG_TO_RAD
  let shifted_ra := (ecliptic_to_equatorial shifted_ecl_lon_rad 0 obliquity).1
  let ic_longitude := calculate_ic_longitude shifted_ra gmst
  let direction_suffix := if direction > 0 then "+" else "-"
  ⟨planet_to_string position.planet, "IC", aspect.name ++ direction_suffix,
   aspect.is_harmonious,
   aspect_line_lats.map (fun lat => ⟨lat, ic_longitude⟩),
   if aspect.is_harmonious then get_planet_color position.planet ++ "80"
   else get_planet_color position.planet ++ "50"⟩

/-- The `calculate_aspect_to_asc` from `lib.rs` (the point loop is a `filterMap`
over the sampled longitudes). -/
noncomputable def calculate_aspect_to_asc (position : PlanetaryPosition)
    (aspect : AspectInfo) (gmst longitude_step : ℝ) (direction : ℤ)
    (obliquity : ℝ) : Option AspectLineResult :=
  let ecl_shift := aspect.angle_deg * (direction : ℝ)
  let shifted_ecl_lon := rustRemEuclid (position.ecliptic_longitude + ecl_shift) 360
  let shifted_ecl_lon_rad := shifted_ecl_lon * DEG_TO_RAD
  let sh := ecliptic_to_equatorial shifted_ecl_lon_rad 0 obliquity
  let points := (sample_longitudes longitude_step).filterMap (fun lng =>
    match calculate_horizon_latitude sh.1 sh.2 gmst lng with
    | some lat =>
        if is_rising sh.1 gmst lng then some (⟨lat, lng⟩ : GlobePoint) else none
    | none => none)
  if points.isEmpty then none
  else
    let direction_suffix := if direction > 0 then "+" else "-"
    some ⟨planet_to_string position.planet, "ASC", aspect.name ++ direction_suffix,
      aspect.is_harmonious, points,
      if aspect.is_harmonious then get_planet_color position.planet ++ "80"
      else get_planet_color position.planet ++ "50"⟩

/-- The `calculate_aspect_to_dsc` from `lib.rs`. -/
noncomputable def calculate_aspect_to_dsc (position : PlanetaryPosition)
    (aspect : AspectInfo) (gmst longitude_step : ℝ) (direction : ℤ)
    (obliquity : ℝ) : Option AspectLineResult :=
  let ecl_shift := aspect.angle_deg * (direction : ℝ)
  let shifted_ecl_lon := rustRemEuclid (position.ecliptic_longitude + ecl_shift) 360
  let shifted_ecl_lon_rad := shifted_ecl_lon * DEG_TO_RAD
  let sh := ecliptic_to_equatorial shifted_ecl_lon_rad 0 obliquity
  let points := (sample_longitudes longitude_step).filterMap (fun lng =>
    match calculate_horizon_latitude sh.1 sh.2 gmst lng with
    | some lat =>
        if !(is_rising sh.1 gmst lng) then some (⟨lat, lng⟩ : GlobePoint) else none
    | none => none)
  if points.isEmpty then none
  else
    let direction_suffix := if direction > 0 then "+" else "-"
    some ⟨planet_to_string position.planet, "DSC", aspect.name ++ direction_suffix,
      aspect.is_harmonious, points,
      if aspect.is_harmonious then get_planet_color position.planet ++ "80"
      else get_planet_color position.planet ++ "50"⟩

/-- The `calculate_planet_aspect_lines` from `lib.rs`: MC and IC lines are pushed
unconditionally for each aspect × direction, ASC and DSC only when `Some`. -/
noncomputable def calculate_planet_aspect_lines (position : PlanetaryPosition)
    (gmst longitude_step obliquity : ℝ) : List AspectLineResult :=
  ASPECTS.flatMap (fun aspect =>
    ([-1, 1] : List ℤ).flatMap (fun direction =>
      [calculate_aspect_to_mc position aspect gmst direction obliquity,
       calculate_aspect_to_ic position aspect gmst direction obliquity]
      ++ (calculate_aspect_to_asc position aspect gmst longitude_step direction
            obliquity).toList
      ++ (calculate_aspect_to_dsc position aspect gmst longitude_step direction
            obliquity).toList))

lemma option_toList_len {α : Type} (o : Option α) : o.toList.length ≤ 1 := by
  cases o <;> simp

lemma ite_none_some {α : Type} {c : Prop} [Decidable c] {x r : α}
    (h : (if c then none else some x) = some r) : x = r := by
  by_cases hc : c
  · rw [if_pos hc] at h
    exact absurd h (by simp)
  · rw [if_neg hc] at h
    exact Option.some.inj h

lemma asc_fields (position : PlanetaryPosition) (aspect : AspectInfo)
    (gmst longitude_step : ℝ) (direction : ℤ) (obliquity : ℝ)
    (r : AspectLineResult)
    (h : calculate_aspect_to_asc position aspect gmst longitude_step direction
      obliquity = some r) :
    r.is_harmonious = aspect.is_harmonious ∧
    r.aspect_type = aspect.name ++ (if direction > 0 then "+" else "-") := by
  simp only [calculate_aspect_to_asc] at h
  obtain rfl := (ite_none_some h).symm
  exact ⟨rfl, rfl⟩

lemma dsc_fields (position : PlanetaryPosition) (aspect : AspectInfo)
    (gmst longitude_step : ℝ) (direction : ℤ) (obliquity : ℝ)
    (r : AspectLineResult)
    (h : calculate_aspect_to_dsc position aspect gmst longitude_step direction
      obliquity = some r) :
    r.is_harmonious = aspect.is_harmonious ∧
    r.aspect_type = aspect.name ++ (if direction > 0 then "+" else "-") := by
  simp only [calculate_aspect_to_dsc] at h
  obtain rfl := (ite_none_some h).symm
  exact ⟨rfl, rfl⟩

lemma combo_fields (position : PlanetaryPosition) (aspect : AspectInfo)
    (gmst longitude_step : ℝ) (direction : ℤ) (obliquity : ℝ) :
    ∀ l ∈ ([calculate_aspect_to_mc position aspect gmst direction obliquity,
        calculate_aspect_to_ic position aspect gmst direction obliquity]
      ++ (calculate_aspect_to_asc position aspect gmst longitude_step direction
            obliquity).toList
      ++ (calculate_aspect_to_dsc position aspect gmst longitude_step direction
            obliquity).toList),
      l.is_harmonious = aspect.is_harmonious ∧
      l.aspect_type = aspect.name ++ (if direction > 0 then "+" else "-") := by
  intro l hl
  simp only [List.mem_append, List.mem_cons, List.mem_singleton,
    List.not_mem_nil, or_false, Option.mem_toList, Option.mem_def] at hl
  rcases hl with ((rfl | rfl) | h) | h
  · exact ⟨rfl, rfl⟩
  · exact ⟨rfl, rfl⟩
  · exact asc_fields position aspect gmst longitude_step direction obliquity l h
  · exact dsc_fields position aspect gmst longitude_step direction obliquity l h

lemma combo_length (position : PlanetaryPosition) (aspect : AspectInfo)
    (gmst longitude_step : ℝ) (direction : ℤ) (obliquity : ℝ) :
    2 ≤ ([calculate_aspect_to_mc position aspect gmst direction obliquity,
        calculate_aspect_to_ic position aspect gmst direction obliquity]
      ++ (calculate_aspect_to_asc position aspect gmst longitude_step direction
            obliquity).toList
      ++ (calculate_aspect_to_dsc position aspect gmst longitude_step direction
            obliquity).toList).length ∧
    ([calculate_aspect_to_mc position aspect gmst direction obliquity,
        calculate_aspect_to_ic position aspect gmst direction obliquity]
      ++ (calculate_aspect_to_asc position aspect gmst longitude_step direction
            obliquity).toList
      ++ (calculate_aspect_to_dsc position aspect gmst longitude_step direction
            obliquity).toList).length ≤ 4 := by
  have h1 := option_toList_len (calculate_aspect_to_asc position aspect gmst
    longitude_step direction obliquity)
  have h2 := option_toList_len (calculate_aspect_to_dsc position aspect gmst
    longitude_step direction obliquity)
  simp only [List.length_append, List.length_cons, List.length_nil]
  omega

/-- C6 (amended): `calculate_planet_aspect_lines` produces between 12 and 24
aspect lines — MC and IC lines are always pushed (3 aspects × 2 directions ×
2 = 12), while ASC and DSC lines are dropped whenever their sampled point set
is empty — and every square line is flagged non-harmonious.  The original
"exactly twenty-four" is refuted by `aspect_lines_not_twenty_four`. -/
theorem aspect_lines_count_and_squares (position : PlanetaryPosition)
    (gmst longitude_step obliquity : ℝ) :
    12 ≤ (calculate_planet_aspect_lines position gmst longitude_step obliquity).length ∧
    (calculate_planet_aspect_lines position gmst longitude_step obliquity).length ≤ 24 ∧
    ∀ l ∈ calculate_planet_aspect_lines position gmst longitude_step obliquity,
      (l.aspect_type = "square+" ∨ l.aspect_type = "square-") →
        l.is_harmonious = false := by
  have t1 := option_toList_len (calculate_aspect_to_asc position
    ⟨120, "trine", true⟩ gmst longitude_step (-1) obliquity)
  have t2 := option_toList_len (calculate_aspect_to_dsc position
    ⟨120, "trine", true⟩ gmst longitude_step (-1) obliquity)
  have t3 := option_toList_len (calculate_aspect_to_asc position
    ⟨120, "trine", true⟩ gmst longitude_step 1 obliquity)
  have t4 := option_toList_len (calculate_aspect_to_dsc position
    ⟨120, "trine", true⟩ gmst longitude_step 1 obliquity)
  have t5 := option_toList_len (calculate_aspect_to_asc position
    ⟨60, "sextile", true⟩ gmst longitude_step (-1) obliquity)
  have t6 := option_toList_len (calculate_aspect_to_dsc position
    ⟨60, "sextile", true⟩ gmst longitude_step (-1) obliquity)
  have t7 := option_toList_len (calculate_aspect_to_asc position
    ⟨60, "sextile", true⟩ gmst longitude_step 1 obliquity)
  have t8 := option_toList_len (calculate_aspect_to_dsc position
    ⟨60, "sextile", true⟩ gmst longitude_step 1 obliquity)
  have t9 := option_toList_len (calculate_aspect_to_asc position
    ⟨90, "square", false⟩ gmst longitude_step (-1) obliquity)
  have t10 := option_toList_len (calculate_aspect_to_dsc position
    ⟨90, "square", false⟩ gmst longitude_step (-1) obliquity)
  have t11 := option_toList_len (calculate_aspect_to_asc position
    ⟨90, "square", false⟩ gmst longitude_step 1 obliquity)
  have t12 := option_toList_len (calculate_aspect_to_dsc position
    ⟨90, "square", false⟩ gmst longitude_step 1 obliquity)
  refine ⟨?_, ?_, ?_⟩
  · simp only [calculate_planet_aspect_lines, ASPECTS, List.flatMap_cons,
      List.flatMap_nil, List.append_nil, List.length_append, List.length_cons,
      List.length_nil]
    omega
  · simp only [calculate_planet_aspect_lines, ASPECTS, List.flatMap_cons,
      List.flatMap_nil, List.append_nil, List.length_append, List.length_cons,
      List.length_nil]
    omega
  · intro l hl hsq
    simp only [calculate_planet_aspect_lines, List.mem_flatMap] at hl
    obtain ⟨aspect, ha, hl⟩ := hl
    obtain ⟨direction, hd, hl⟩ := hl
    obtain ⟨hharm, htype⟩ := combo_fields position aspect gmst longitude_step
      direction obliquity l hl
    simp only [ASPECTS, List.mem_cons, List.mem_singleton, List.not_mem_nil,
      or_false] at ha
    rcases ha with rfl | rfl | rfl
    · exfalso
      rcases hsq with h | h <;>
        (rw [htype] at h; revert h; split_ifs <;> intro h <;>
          exact absurd h (by decide))
    · exfalso
      rcases hsq with h | h <;>
        (rw [htype] at h; revert h; split_ifs <;> intro h <;>
          exact absurd h (by decide))
    · exact hharm

lemma ecliptic_to_equatorial_dec_zero (lon : ℝ) :
    (ecliptic_to_equatorial lon 0 0).2 = 0 := by
  simp [ecliptic_to_equatorial]

lemma horizon_none_dec0 (ra gmst lng : ℝ) :
    calculate_horizon_latitude ra 0 gmst lng = none :=
  horizon_none_of_sin_small ra 0 gmst lng
    (by rw [Real.sin_zero, abs_zero]; norm_num)

lemma asc_none_of_obliquity_zero (position : PlanetaryPosition)
    (aspect : AspectInfo) (gmst longitude_step : ℝ) (direction : ℤ) :
    calculate_aspect_to_asc position aspect gmst longitude_step direction 0 =
      none := by
  simp only [calculate_aspect_to_asc, ecliptic_to_equatorial_dec_zero,
    horizon_none_dec0]
  simp

lemma dsc_none_of_obliquity_zero (position : PlanetaryPosition)
    (aspect : AspectInfo) (gmst longitude_step : ℝ) (direction : ℤ) :
    calculate_aspect_to_dsc position aspect gmst longitude_step direction 0 =
      none := by
  simp only [calculate_aspect_to_dsc, ecliptic_to_equatorial_dec_zero,
    horizon_none_dec0]
  simp

/-- Counterexample to the original C6: at ecliptic longitude 60°, GMST 0,
longitude step 30 and obliquity 0, every shifted declination is 0, so every
ASC/DSC horizon sample returns `None` and all twelve ASC/DSC lines are
dropped: only 12 lines are produced, not 24. -/
theorem aspect_lines_not_twenty_four :
    (calculate_planet_aspect_lines ⟨Planet.Sun, 0, 0, 60⟩ 0 30 0).length = 12 := by
  simp only [calculate_planet_aspect_lines, ASPECTS, List.flatMap_cons,
    List.flatMap_nil, List.append_nil, asc_none_of_obliquity_zero,
    dsc_none_of_obliquity_zero, Option.toList_none, List.length_append,
    List.length_cons, List.length_nil]

lemma remEuclid_180 : rustRemEuclid (180 : ℝ) 360 = 180 := by
  have hf : ⌊(180 : ℝ) / 360⌋ = 0 := by
    rw [Int.floor_eq_zero_iff, Set.mem_Ico]
    constructor <;> norm_num
  simp only [rustRemEuclid, rustRem]
  rw [if_pos (by norm_num : (0 : ℝ) ≤ 180 / 360), hf]
  norm_num

lemma remEuclid_0 : rustRemEuclid (0 : ℝ) 360 = 0 := by
  simp only [rustRemEuclid, rustRem]
  norm_num

lemma asc_none_of_shift_sin_zero (p : PlanetaryPosition) (aspect : AspectInfo)
    (gmst longitude_step : ℝ) (d : ℤ) (obliquity : ℝ)
    (h : Real.sin (rustRemEuclid (p.ecliptic_longitude + aspect.angle_deg * (d : ℝ))
      360 * DEG_TO_RAD) = 0) :
    calculate_aspect_to_asc p aspect gmst longitude_step d obliquity = none := by
  have hdec : (ecliptic_to_equatorial
      (rustRemEuclid (p.ecliptic_longitude + aspect.angle_deg * (d : ℝ)) 360 *
        DEG_TO_RAD) 0 obliquity).2 = 0 := by
    simp [ecliptic_to_equatorial, h]
  simp only [calculate_aspect_to_asc, hdec, horizon_none_dec0]
  simp

lemma dsc_none_of_shift_sin_zero (p : PlanetaryPosition) (aspect : AspectInfo)
    (gmst longitude_step : ℝ) (d : ℤ) (obliquity : ℝ)
    (h : Real.sin (rustRemEuclid (p.ecliptic_longitude + aspect.angle_deg * (d : ℝ))
      360 * DEG_TO_RAD) = 0) :
    calculate_aspect_to_dsc p aspect gmst longitude_step d obliquity = none := by
  have hdec : (ecliptic_to_equatorial
      (rustRemEuclid (p.ecliptic_longitude + aspect.angle_deg * (d : ℝ)) 360 *
        DEG_TO_RAD) 0 obliquity).2 = 0 := by
    simp [ecliptic_to_equatorial, h]
  simp only [calculate_aspect_to_dsc, hdec, horizon_none_dec0]
  simp

/-- Supporting evidence for the C6 correction at a realistic obliquity: even at
the mean obliquity 23.44° the body at ecliptic longitude 60° loses at least the
four ASC/DSC lines of trine+ (shift to 180°) and sextile− (shift to 0°), whose
shifted declination is exactly zero, so fewer than 24 lines are produced. -/
theorem aspect_lines_below_24_at_mean_obliquity :
    (calculate_planet_aspect_lines ⟨Planet.Sun, 0, 0, 60⟩ 0 30
      (23.44 * Real.pi / 180)).length ≤ 20 := by
  have h180 : Real.sin (rustRemEuclid
      ((⟨Planet.Sun, 0, 0, 60⟩ : PlanetaryPosition).ecliptic_longitude +
        (⟨120, "trine", true⟩ : AspectInfo).angle_deg * ((1 : ℤ) : ℝ)) 360 *
      DEG_TO_RAD) = 0 := by
    rw [show (⟨Planet.Sun, 0, 0, 60⟩ : PlanetaryPosition).ecliptic_longitude +
        (⟨120, "trine", true⟩ : AspectInfo).angle_deg * ((1 : ℤ) : ℝ) = 180 from by
      show (60 : ℝ) + 120 * ((1 : ℤ) : ℝ) = 180
      push_cast; norm_num]
    rw [remEuclid_180, show (180 : ℝ) * DEG_TO_RAD = Real.pi from by
      rw [DEG_TO_RAD]; field_simp]
    exact Real.sin_pi
  have h0 : Real.sin (rustRemEuclid
      ((⟨Planet.Sun, 0, 0, 60⟩ : PlanetaryPosition).ecliptic_longitude +
        (⟨60, "sextile", true⟩ : AspectInfo).angle_deg * ((-1 : ℤ) : ℝ)) 360 *
      DEG_TO_RAD) = 0 := by
    rw [show (⟨Planet.Sun, 0, 0, 60⟩ : PlanetaryPosition).ecliptic_longitude +
        (⟨60, "sextile", true⟩ : AspectInfo).angle_deg * ((-1 : ℤ) : ℝ) = 0 from by
      show (60 : ℝ) + 60 * ((-1 : ℤ) : ℝ) = 0
      push_cast; norm_num]
    rw [remEuclid_0, zero_mul]
    exact Real.sin_zero
  have a1 := asc_none_of_shift_sin_zero ⟨Planet.Sun, 0, 0, 60⟩ ⟨120, "trine", true⟩
    0 30 1 (23.44 * Real.pi / 180) h180
  have a2 := dsc_none_of_shift_sin_zero ⟨Planet.Sun, 0, 0, 60⟩ ⟨120, "trine", true⟩
    0 30 1 (23.44 * Real.pi / 180) h180
  have a3 := asc_none_of_shift_sin_zero ⟨Planet.Sun, 0, 0, 60⟩ ⟨60, "sextile", true⟩
    0 30 (-1) (23.44 * Real.pi / 180) h0
  have a4 := dsc_none_of_shift_sin_zero ⟨Planet.Sun, 0, 0, 60⟩ ⟨60, "sextile", true⟩
    0 30 (-1) (23.44 * Real.pi / 180) h0
  have t1 := option_toList_len (calculate_aspect_to_asc ⟨Planet.Sun, 0, 0, 60⟩
    ⟨120, "trine", true⟩ 0 30 (-1) (23.44 * Real.pi / 180))
  have t2 := option_toList_len (calculate_aspect_to_dsc ⟨Planet.Sun, 0, 0, 60⟩
    ⟨120, "trine", true⟩ 0 30 (-1) (23.44 * Real.pi / 180))
  have t3 := option_toList_len (calculate_aspect_to_asc ⟨Planet.Sun, 0, 0, 60⟩
    ⟨60, "sextile", true⟩ 0 30 1 (23.44 * Real.pi / 180))
  have t4 := option_toList_len (calculate_aspect_to_dsc ⟨Planet.Sun, 0, 0, 60⟩
    ⟨60, "sextile", true⟩ 0 30 1 (23.44 * Real.pi / 180))
  have t5 := option_toList_len (calculate_aspect_to_asc ⟨Planet.Sun, 0, 0, 60⟩
    ⟨90, "square", false⟩ 0 30 (-1) (23.44 * Real.pi / 180))
  have t6 := option_toList_len (calculate_aspect_to_dsc ⟨Planet.Sun, 0, 0, 60⟩
    ⟨90, "square", false⟩ 0 30 (-1) (23.44 * Real.pi / 180))
  have t7 := option_toList_len (calculate_aspect_to_asc ⟨Planet.Sun, 0, 0, 60⟩
    ⟨90, "square", false⟩ 0 30 1 (23.44 * Real.pi / 180))
  have t8 := option_toList_len (calculate_aspect_to_dsc ⟨Planet.Sun, 0, 0, 60⟩
    ⟨90, "square", false⟩ 0 30 1 (23.44 * Real.pi / 180))
  simp only [calculate_planet_aspect_lines, ASPECTS, List.flatMap_cons,
    List.flatMap_nil, List.append_nil, a1, a2, a3, a4, Option.toList_none,
    List.length_append, List.length_cons, List.length_nil]
  omega

/-- The `to_julian_date` from `lib.rs`: Meeus Gregorian calendar → Julian Date. -/
def to_julian_date (year : ℤ) (month day hour minute second : ℕ) : ℚ :=
  let ut : ℚ := (hour : ℚ) + (minute : ℚ) / 60 + (second : ℚ) / 3600
  let y : ℤ := if month ≤ 2 then year - 1 else year
  let m : ℤ := if month ≤ 2 then (month : ℤ) + 12 else (month : ℤ)
  let a : ℤ := ⌊(y : ℚ) / 100⌋
  let b : ℤ := 2 - a + ⌊(a : ℚ) / 4⌋
  ((⌊(365.25 : ℚ) * ((y : ℚ) + 4716)⌋ + ⌊(30.6001 : ℚ) * ((m : ℚ) + 1)⌋
      + (day : ℤ) + b : ℤ) : ℚ) + ut / 24 - 1524.5

/-- The `jd_to_calendar` from `lib.rs`: Meeus ch. 7 inverse (year, month, day). -/
def jd_to_calendar (jd : ℚ) : ℤ × ℤ × ℤ :=
  let z : ℤ := ⌊jd + 0.5⌋
  let a : ℤ := if z < 2299161 then z else
    (let alpha : ℤ := ⌊((z : ℚ) - 1867216.25) / 36524.25⌋
     z + 1 + alpha - alpha.tdiv 4)
  let b : ℤ := a + 1524
  let c : ℤ := ⌊((b : ℚ) - 122.1) / 365.25⌋
  let dd : ℤ := ⌊(365.25 : ℚ) * (c : ℚ)⌋
  let e : ℤ := ⌊((b - dd : ℤ) : ℚ) / 30.6001⌋
  let day : ℤ := b - dd - ⌊(30.6001 : ℚ) * (e : ℚ)⌋
  let month : ℤ := if e < 14 then e - 1 else e - 13
  let year : ℤ := if month > 2 then c - 4716 else c - 4715
  (year, month, day)

lemma floor_ratCast_div (x : ℚ) (a : ℤ) (dnat : ℕ) (hx : x = (a : ℚ) / (dnat : ℚ)) :
    ⌊x⌋ = a / (dnat : ℤ) := by
  rw [hx, Rat.floor_intCast_div_natCast]

lemma floor_int_add_half (n : ℤ) : ⌊(n : ℚ) + 0.5⌋ = n := by
  have h : (0 : ℚ) ≤ 0.5 ∧ (0.5 : ℚ) < 1 := by norm_num
  rw [Int.floor_eq_iff] <;> push_cast <;> constructor <;> linarith [h.1, h.2]

/-- At noon the Meeus forward algorithm produces an integer Julian Date. -/
lemma to_julian_date_noon (year : ℤ) (month day : ℕ) :
    to_julian_date year month day 12 0 0 =
      (((1461 * ((if month ≤ 2 then year - 1 else year) + 4716)) / 4
        + (306001 * ((if month ≤ 2 then (month : ℤ) + 12 else (month : ℤ)) + 1)) / 10000
        + (day : ℤ)
        + (2 - (if month ≤ 2 then year - 1 else year) / 100
             + (if month ≤ 2 then year - 1 else year) / 100 / 4) - 1524 : ℤ) : ℚ) := by
  simp only [to_julian_date]
  set y : ℤ := if month ≤ 2 then year - 1 else year with hy
  set m : ℤ := if month ≤ 2 then (month : ℤ) + 12 else (month : ℤ) with hm
  have h1 : ⌊(365.25 : ℚ) * ((y : ℚ) + 4716)⌋ = (1461 * (y + 4716)) / 4 :=
    floor_ratCast_div _ _ 4 (by push_cast; ring_nf; try norm_num)
  have h2 : ⌊(30.6001 : ℚ) * ((m : ℚ) + 1)⌋ = (306001 * (m + 1)) / 10000 :=
    floor_ratCast_div _ _ 10000 (by push_cast; ring_nf; try norm_num)
  have h3 : ⌊(y : ℚ) / 100⌋ = y / 100 :=
    floor_ratCast_div _ _ 100 (by norm_num)
  have h4 : ⌊((y / 100 : ℤ) : ℚ) / 4⌋ = y / 100 / 4 :=
    floor_ratCast_div _ _ 4 (by norm_num)
  rw [h3, h4, h1, h2]
  push_cast
  ring_nf
  try norm_num

lemma floorMeeusAlpha (n : ℤ) : ⌊((n : ℚ) - 1867216.25) / 36524.25⌋ = (4 * n - 7468865) / 146097 :=
  floor_ratCast_div _ _ 146097 (by push_cast; ring_nf; try norm_num)

lemma floorMeeusC (b : ℤ) : ⌊((b : ℚ) - 122.1) / 365.25⌋ = (20 * b - 2442) / 7305 :=
  floor_ratCast_div _ _ 7305 (by push_cast; ring_nf; try norm_num)

lemma floorMeeusD (c : ℤ) : ⌊(365.25 : ℚ) * (c : ℚ)⌋ = (1461 * c) / 4 :=
  floor_ratCast_div _ _ 4 (by push_cast; ring_nf; try norm_num)

lemma floorMeeusE (x : ℤ) : ⌊((x : ℤ) : ℚ) / 30.6001⌋ = (10000 * x) / 306001 :=
  floor_ratCast_div _ _ 306001 (by push_cast; ring_nf; try norm_num)

lemma floorMeeusDay (e : ℤ) : ⌊(30.6001 : ℚ) * (e : ℚ)⌋ = (306001 * e) / 10000 :=
  floor_ratCast_div _ _ 10000 (by push_cast; ring_nf; try norm_num)

lemma meeus_alpha_eq (y1 m1 d n : ℤ)
    (hy : 1599 ≤ y1) (hy2 : y1 ≤ 2200) (hm : 3 ≤ m1) (hm2 : m1 ≤ 14) (hd : 1 ≤ d)
    (hupper : 10000 * ((306001 * (m1 + 1)) / 10000 + d) < 306001 * (m1 + 2))
    (hfeb : m1 = 14 → (d ≤ 28 ∨ (d = 29 ∧ (y1 + 1) % 4 = 0 ∧
      ((y1 + 1) % 100 ≠ 0 ∨ (y1 + 1) % 400 = 0))))
    (hz : n = 365 * (y1 + 4716) + (y1 + 4716) / 4 + (306001 * (m1 + 1)) / 10000 + d
        + (2 - y1 / 100 + y1 / 100 / 4) - 1524) :
    ⌊((n : ℚ) - 1867216.25) / 36524.25⌋ = y1 / 100 - 4 := by
  rw [floorMeeusAlpha]
  have hlow : 146097 * (y1 / 100 - 4) ≤ 4 * n - 7468865 := by omega
  have hhigh : 4 * n - 7468865 < 146097 * (y1 / 100 - 4) + 146097 := by
    by_cases h14 : m1 = 14
    · rcases hfeb h14 with h | ⟨h29, h4, h100⟩ <;> omega
    · omega
  omega

lemma meeus_c_eq (y1 m1 d : ℤ)
    (hy : 1599 ≤ y1) (hy2 : y1 ≤ 2200) (hm : 3 ≤ m1) (hm2 : m1 ≤ 14) (hd : 1 ≤ d)
    (hupper : 10000 * ((306001 * (m1 + 1)) / 10000 + d) < 306001 * (m1 + 2))
    (hfeb : m1 = 14 → (d ≤ 28 ∨ (d = 29 ∧ (y1 + 1) % 4 = 0 ∧
      ((y1 + 1) % 100 ≠ 0 ∨ (y1 + 1) % 400 = 0)))) :
    ⌊(((365 * (y1 + 4716) + (y1 + 4716) / 4 + (306001 * (m1 + 1)) / 10000 + d : ℤ) : ℚ)
      - 122.1) / 365.25⌋ = y1 + 4716 := by
  rw [floorMeeusC]
  have hhigh : 20 * (365 * (y1 + 4716) + (y1 + 4716) / 4 + (306001 * (m1 + 1)) / 10000 + d)
      - 2442 < 7305 * (y1 + 4716) + 7305 := by
    by_cases h14 : m1 = 14
    · rcases hfeb h14 with h | ⟨h29, h4, h100⟩ <;> omega
    · omega
  omega

lemma meeus_d_eq (y1 : ℤ) :
    ⌊(365.25 : ℚ) * ((y1 + 4716 : ℤ) : ℚ)⌋ = 365 * (y1 + 4716) + (y1 + 4716) / 4 := by
  rw [floorMeeusD]; omega

lemma meeus_e_eq (y1 m1 d : ℤ) (hm : 3 ≤ m1) (hm2 : m1 ≤ 14) (hd : 1 ≤ d)
    (hupper : 10000 * ((306001 * (m1 + 1)) / 10000 + d) < 306001 * (m1 + 2)) :
    ⌊((365 * (y1 + 4716) + (y1 + 4716) / 4 + (306001 * (m1 + 1)) / 10000 + d
      - (365 * (y1 + 4716) + (y1 + 4716) / 4) : ℤ) : ℚ) / 30.6001⌋ = m1 + 1 := by
  rw [show (365 * (y1 + 4716) + (y1 + 4716) / 4 + (306001 * (m1 + 1)) / 10000 + d
      - (365 * (y1 + 4716) + (y1 + 4716) / 4) : ℤ) = (306001 * (m1 + 1)) / 10000 + d by ring,
    floorMeeusE]
  omega

/-- Integer core: the Meeus inverse applied to a noon Julian Day Number of a valid
Gregorian date in the supported range recovers the date. -/
lemma jd_to_calendar_int (y1 m1 d n : ℤ)
    (hy : 1599 ≤ y1) (hy2 : y1 ≤ 2200) (hm : 3 ≤ m1) (hm2 : m1 ≤ 14) (hd : 1 ≤ d)
    (hupper : 10000 * ((306001 * (m1 + 1)) / 10000 + d) < 306001 * (m1 + 2))
    (hfeb : m1 = 14 → (d ≤ 28 ∨ (d = 29 ∧ (y1 + 1) % 4 = 0 ∧
      ((y1 + 1) % 100 ≠ 0 ∨ (y1 + 1) % 400 = 0))))
    (hn : n = (1461 * (y1 + 4716)) / 4 + (306001 * (m1 + 1)) / 10000 + d
        + (2 - y1 / 100 + y1 / 100 / 4) - 1524) :
    jd_to_calendar ((n : ℚ)) =
      (if 13 ≤ m1 then y1 + 1 else y1, if 13 ≤ m1 then m1 - 12 else m1, d) := by
  have hz : n = 365 * (y1 + 4716) + (y1 + 4716) / 4 + (306001 * (m1 + 1)) / 10000 + d
      + (2 - y1 / 100 + y1 / 100 / 4) - 1524 := by omega
  have hn2299 : ¬ n < 2299161 := by omega
  have halpha := meeus_alpha_eq y1 m1 d n hy hy2 hm hm2 hd hupper hfeb hz
  have htdiv : (y1 / 100 - 4).tdiv 4 = (y1 / 100 - 4) / 4 :=
    Int.tdiv_eq_ediv (by omega) (by omega)
  have hB : n + 1 + (y1 / 100 - 4) - (y1 / 100 - 4) / 4 + 1524
      = 365 * (y1 + 4716) + (y1 + 4716) / 4 + (306001 * (m1 + 1)) / 10000 + d := by
    omega
  have hC := meeus_c_eq y1 m1 d hy hy2 hm hm2 hd hupper hfeb
  have hD := meeus_d_eq y1
  have hE := meeus_e_eq y1 m1 d hm hm2 hd hupper
  have hday : ⌊(30.6001 : ℚ) * ((m1 + 1 : ℤ) : ℚ)⌋ = (306001 * (m1 + 1)) / 10000 :=
    floorMeeusDay (m1 + 1)
  simp only [jd_to_calendar]
  rw [floor_int_add_half, if_neg hn2299, halpha, htdiv, hB, hC, hD, hE, hday]
  split_ifs <;> simp only [Prod.mk.injEq] <;> refine ⟨by omega, by omega, by omega⟩

lemma to_julian_date_noon_late (year : ℤ) (month day : ℕ) (h : ¬ month ≤ 2) :
    to_julian_date year month day 12 0 0 =
      (((1461 * (year + 4716)) / 4 + (306001 * ((month : ℤ) + 1)) / 10000 + (day : ℤ)
        + (2 - year / 100 + year / 100 / 4) - 1524 : ℤ) : ℚ) := by
  rw [to_julian_date_noon, if_neg h, if_neg h]

lemma to_julian_date_noon_early (year : ℤ) (month day : ℕ) (h : month ≤ 2) :
    to_julian_date year month day 12 0 0 =
      (((1461 * ((year - 1) + 4716)) / 4 + (306001 * (((month : ℤ) + 12) + 1)) / 10000
        + (day : ℤ) + (2 - (year - 1) / 100 + (year - 1) / 100 / 4) - 1524 : ℤ) : ℚ) := by
  rw [to_julian_date_noon, if_pos h, if_pos h]

lemma jd_to_calendar_int_low (y1 m1 d n : ℤ)
    (hy : 1599 ≤ y1) (hy2 : y1 ≤ 2200) (hm : 3 ≤ m1) (hm2 : m1 ≤ 12) (hd : 1 ≤ d)
    (hupper : 10000 * ((306001 * (m1 + 1)) / 10000 + d) < 306001 * (m1 + 2))
    (hn : n = (1461 * (y1 + 4716)) / 4 + (306001 * (m1 + 1)) / 10000 + d
        + (2 - y1 / 100 + y1 / 100 / 4) - 1524) :
    jd_to_calendar ((n : ℚ)) = (y1, m1, d) := by
  have h := jd_to_calendar_int y1 m1 d n hy hy2 hm (by omega) hd hupper
    (fun h14 => absurd h14 (by omega)) hn
  rwa [if_neg (by omega), if_neg (by omega)] at h

lemma jd_to_calendar_int_high (y1 m1 d n : ℤ)
    (hy : 1599 ≤ y1) (hy2 : y1 ≤ 2200) (hm : 13 ≤ m1) (hm2 : m1 ≤ 14) (hd : 1 ≤ d)
    (hupper : 10000 * ((306001 * (m1 + 1)) / 10000 + d) < 306001 * (m1 + 2))
    (hfeb : m1 = 14 → (d ≤ 28 ∨ (d = 29 ∧ (y1 + 1) % 4 = 0 ∧
      ((y1 + 1) % 100 ≠ 0 ∨ (y1 + 1) % 400 = 0))))
    (hn : n = (1461 * (y1 + 4716)) / 4 + (306001 * (m1 + 1)) / 10000 + d
        + (2 - y1 / 100 + y1 / 100 / 4) - 1524) :
    jd_to_calendar ((n : ℚ)) = (y1 + 1, m1 - 12, d) := by
  have h := jd_to_calendar_int y1 m1 d n hy hy2 (by omega) hm2 hd hupper hfeb hn
  rwa [if_pos (by omega), if_pos (by omega)] at h

/-- Gregorian leap-year rule (spec side, used to state date validity). -/
def isGregorianLeap (y : ℤ) : Prop := (y % 4 = 0 ∧ y % 100 ≠ 0) ∨ y % 400 = 0

instance (y : ℤ) : Decidable (isGregorianLeap y) := by unfold isGregorianLeap; infer_instance

/-- Number of days of a Gregorian month (spec side, used to state date validity). -/
def daysInMonth (y : ℤ) (m : ℕ) : ℤ :=
  if m = 2 then (if isGregorianLeap y then 29 else 28)
  else if m = 4 ∨ m = 6 ∨ m = 9 ∨ m = 11 then 30 else 31

/-- C5: for every valid Gregorian calendar date (y, m, d) with y in
[1600, 2200], `jd_to_calendar (to_julian_date y m d 12 0 0)` returns exactly
(y, m, d). -/
theorem roundtrip (y : ℤ) (m d : ℕ) (hy : 1600 ≤ y) (hy2 : y ≤ 2200)
    (hm : 1 ≤ m) (hm2 : m ≤ 12) (hd : 1 ≤ d) (hd2 : (d : ℤ) ≤ daysInMonth y m) :
    jd_to_calendar (to_julian_date y m d 12 0 0) = (y, (m : ℤ), (d : ℤ)) := by
  interval_cases m
  · -- January
    norm_num [daysInMonth] at hd2
    rw [to_julian_date_noon_early y 1 d (by norm_num)]
    have h := jd_to_calendar_int_high (y - 1) (((1 : ℕ) : ℤ) + 12) d _ (by omega) (by omega)
      (by omega) (by omega) (by omega) (by omega) (fun h14 => absurd h14 (by omega)) rfl
    rw [h]
    simp only [Prod.mk.injEq]
    refine ⟨by omega, by omega, by trivial⟩
  · -- February
    rw [show daysInMonth y 2 = if isGregorianLeap y then 29 else 28 from rfl] at hd2
    rw [to_julian_date_noon_early y 2 d (by norm_num)]
    by_cases hleap : isGregorianLeap y
    · rw [if_pos hleap] at hd2
      have hleap2 : (y % 4 = 0 ∧ y % 100 ≠ 0) ∨ y % 400 = 0 := hleap
      have h := jd_to_calendar_int_high (y - 1) (((2 : ℕ) : ℤ) + 12) d _ (by omega) (by omega)
        (by omega) (by omega) (by omega) (by omega)
        (fun _ => by rcases hleap2 with ⟨h1, h2⟩ | h3 <;> omega) rfl
      rw [h]
      simp only [Prod.mk.injEq]
      refine ⟨by omega, by omega, by trivial⟩
    · rw [if_neg hleap] at hd2
      have h := jd_to_calendar_int_high (y - 1) (((2 : ℕ) : ℤ) + 12) d _ (by omega) (by omega)
        (by omega) (by omega) (by omega) (by omega)
        (fun _ => Or.inl (by omega)) rfl
      rw [h]
      simp only [Prod.mk.injEq]
      refine ⟨by omega, by omega, by trivial⟩
  all_goals (
    norm_num [daysInMonth] at hd2
    rw [to_julian_date_noon_late _ _ _ (by norm_num)]
    rw [jd_to_calendar_int_low y _ d _ (by omega) (by omega) (by omega) (by omega)
      (by omega) (by omega) rfl])

/-- The `calculate_delta_t` from `lib.rs`: piecewise polynomial ΔT = TT - UT1 in seconds
(Espenak–Meeus style), exact rational model of the f64 computation. -/
def calculate_delta_t (year : ℤ) (month : ℕ) : ℚ :=
  let y : ℚ := (year : ℚ) + ((month : ℚ) - 0.5) / 12
  if y < -500 then (let u := (y - 1820) / 100;
    -20 + 32 * u ^ 2)
  else if y < 500 then (let u := y / 100;
    10583.6 - 1014.41 * u + 33.78311 * u ^ 2
      - 5.952053 * u ^ 3 - 0.1798452 * u ^ 4
      + 0.022174192 * u ^ 5 + 0.0090316521 * u ^ 6)
  else if y < 1600 then (let u := (y - 1000) / 100;
    1574.2 - 556.01 * u + 71.23472 * u ^ 2
      + 0.319781 * u ^ 3 - 0.8503463 * u ^ 4
      - 0.005050998 * u ^ 5 + 0.0083572073 * u ^ 6)
  else if y < 1700 then (let t := y - 1600;
    120 - 0.9808 * t - 0.01532 * t ^ 2 + t ^ 3 / 7129)
  else if y < 1800 then (let t := y - 1700;
    8.83 + 0.1603 * t - 0.0059285 * t ^ 2
      + 0.00013336 * t ^ 3 - t ^ 4 / 1174000)
  else if y < 1860 then (let t := y - 1800;
    13.72 - 0.332447 * t + 0.0068612 * t ^ 2
      + 0.0041116 * t ^ 3 - 0.00037436 * t ^ 4
      + 0.0000121272 * t ^ 5 - 0.0000001699 * t ^ 6
      + 0.000000000875 * t ^ 7)
  else if y < 1900 then (let t := y - 1860;
    7.62 + 0.5737 * t - 0.251754 * t ^ 2
      + 0.01680668 * t ^ 3 - 0.0004473624 * t ^ 4
      + t ^ 5 / 233174)
  else if y < 1920 then (let t := y - 1900;
    -2.79 + 1.494119 * t - 0.0598939 * t ^ 2
      + 0.0061966 * t ^ 3 - 0.000197 * t ^ 4)
  else if y < 1941 then (let t := y - 1920;
    21.20 + 0.84493 * t - 0.076100 * t ^ 2 + 0.0020936 * t ^ 3)
  else if y < 1961 then (let t := y - 1950;
    29.07 + 0.407 * t - t ^ 2 / 233 + t ^ 3 / 2547)
  else if y < 1986 then (let t := y - 1975;
    45.45 + 1.067 * t - t ^ 2 / 260 - t ^ 3 / 718)
  else if y < 2005 then (let t := y - 2000;
    63.86 + 0.3345 * t - 0.060374 * t ^ 2
      + 0.0017275 * t ^ 3 + 0.000651814 * t ^ 4
      + 0.00002373599 * t ^ 5)
  else if y < 2050 then (let t := y - 2000;
    62.92 + 0.32217 * t + 0.005589 * t ^ 2)
  else if y < 2150 then (let u := (y - 1820) / 100;
    -20 + 32 * u ^ 2 - 0.5628 * (2150 - y))
  else (let u := (y - 1820) / 100;
    -20 + 32 * u ^ 2)

/-- Counterexample to the original C3: `calculate_delta_t 1900 1` is negative
(the 1900–1920 polynomial starts at −2.79 s), so ΔT is not ≥ 0 for every
calendar year. -/
theorem delta_t_negative_1900_january : calculate_delta_t 1900 1 < 0 := by
  with_unfolding_all decide

-- bounded check 1902..2004, all months
set_option maxHeartbeats 4000000 in
lemma delta_t_nonneg_1902_2004 :
    ∀ k : Fin 103, ∀ j : Fin 12, 0 ≤ calculate_delta_t (1902 + (k.val : ℤ)) (j.val + 1) := by
  with_unfolding_all decide

lemma delta_t_branch12 (year : ℤ) (month : ℕ)
    (hy : 2005 ≤ year) (hy2 : year ≤ 2049) (hm1 : 1 ≤ month) (hm2 : month ≤ 12) :
    0 ≤ calculate_delta_t year month := by
  have hyc : (2005 : ℚ) ≤ (year : ℚ) := by exact_mod_cast hy
  have hyc2 : ((year : ℚ)) ≤ 2049 := by exact_mod_cast hy2
  have hm1c : (1 : ℚ) ≤ (month : ℚ) := by exact_mod_cast hm1
  have hm2c : ((month : ℚ)) ≤ 12 := by exact_mod_cast hm2
  simp only [calculate_delta_t]
  set Y : ℚ := (year : ℚ) + ((month : ℚ) - 0.5) / 12 with hY
  have hb1 : (2005 : ℚ) ≤ Y := by rw [hY]; nlinarith
  have hb2 : Y < 2050 := by rw [hY]; nlinarith
  rw [if_neg (by linarith : ¬ Y < -500), if_neg (by linarith : ¬ Y < 500),
    if_neg (by linarith : ¬ Y < 1600), if_neg (by linarith : ¬ Y < 1700),
    if_neg (by linarith : ¬ Y < 1800), if_neg (by linarith : ¬ Y < 1860),
    if_neg (by linarith : ¬ Y < 1900), if_neg (by linarith : ¬ Y < 1920),
    if_neg (by linarith : ¬ Y < 1941), if_neg (by linarith : ¬ Y < 1961),
    if_neg (by linarith : ¬ Y < 1986), if_neg (by linarith : ¬ Y < 2005),
    if_pos hb2]
  nlinarith [sq_nonneg (Y - 2000)]

lemma delta_t_branch13 (year : ℤ) (month : ℕ)
    (hy : 2050 ≤ year) (hy2 : year ≤ 2149) (hm1 : 1 ≤ month) (hm2 : month ≤ 12) :
    0 ≤ calculate_delta_t year month := by
  have hyc : (2050 : ℚ) ≤ (year : ℚ) := by exact_mod_cast hy
  have hyc2 : ((year : ℚ)) ≤ 2149 := by exact_mod_cast hy2
  have hm1c : (1 : ℚ) ≤ (month : ℚ) := by exact_mod_cast hm1
  have hm2c : ((month : ℚ)) ≤ 12 := by exact_mod_cast hm2
  simp only [calculate_delta_t]
  set Y : ℚ := (year : ℚ) + ((month : ℚ) - 0.5) / 12 with hY
  have hb1 : (2050 : ℚ) ≤ Y := by rw [hY]; nlinarith
  have hb2 : Y < 2150 := by rw [hY]; nlinarith
  rw [if_neg (by linarith : ¬ Y < -500), if_neg (by linarith : ¬ Y < 500),
    if_neg (by linarith : ¬ Y < 1600), if_neg (by linarith : ¬ Y < 1700),
    if_neg (by linarith : ¬ Y < 1800), if_neg (by linarith : ¬ Y < 1860),
    if_neg (by linarith : ¬ Y < 1900), if_neg (by linarith : ¬ Y < 1920),
    if_neg (by linarith : ¬ Y < 1941), if_neg (by linarith : ¬ Y < 1961),
    if_neg (by linarith : ¬ Y < 1986), if_neg (by linarith : ¬ Y < 2005),
    if_neg (by linarith : ¬ Y < 2050), if_pos hb2]
  nlinarith [sq_nonneg ((Y - 1820) / 100 - 23 / 10)]

lemma delta_t_branch14 (year : ℤ) (month : ℕ)
    (hy : 2150 ≤ year) (hm1 : 1 ≤ month) (hm2 : month ≤ 12) :
    0 ≤ calculate_delta_t year month := by
  have hyc : (2150 : ℚ) ≤ (year : ℚ) := by exact_mod_cast hy
  have hm1c : (1 : ℚ) ≤ (month : ℚ) := by exact_mod_cast hm1
  have hm2c : ((month : ℚ)) ≤ 12 := by exact_mod_cast hm2
  simp only [calculate_delta_t]
  set Y : ℚ := (year : ℚ) + ((month : ℚ) - 0.5) / 12 with hY
  have hb1 : (2150 : ℚ) ≤ Y := by rw [hY]; nlinarith
  rw [if_neg (by linarith : ¬ Y < -500), if_neg (by linarith : ¬ Y < 500),
    if_neg (by linarith : ¬ Y < 1600), if_neg (by linarith : ¬ Y < 1700),
    if_neg (by linarith : ¬ Y < 1800), if_neg (by linarith : ¬ Y < 1860),
    if_neg (by linarith : ¬ Y < 1900), if_neg (by linarith : ¬ Y < 1920),
    if_neg (by linarith : ¬ Y < 1941), if_neg (by linarith : ¬ Y < 1961),
    if_neg (by linarith : ¬ Y < 1986), if_neg (by linarith : ¬ Y < 2005),
    if_neg (by linarith : ¬ Y < 2050), if_neg (by linarith : ¬ Y < 2150)]
  nlinarith [sq_nonneg ((Y - 1820) / 100 - 33 / 10)]

lemma delta_t_nonneg_2005_plus (year : ℤ) (month : ℕ)
    (hy : 2005 ≤ year) (hm1 : 1 ≤ month) (hm2 : month ≤ 12) :
    0 ≤ calculate_delta_t year month := by
  rcases le_or_lt 2150 year with h | h
  · exact delta_t_branch14 year month h hm1 hm2
  rcases le_or_lt 2050 year with h2 | h2
  · exact delta_t_branch13 year month h2 (by omega) hm1 hm2
  · exact delta_t_branch12 year month hy (by omega) hm1 hm2


/-- C3 (amended): `calculate_delta_t year month` is nonnegative for every
year ≥ 1902 and month in 1..12 (the original "every calendar year" fails at
(1900, 1), see `delta_t_negative_1900_january`). -/
theorem delta_t_nonneg_from_1902 (year : ℤ) (month : ℕ)
    (hy : 1902 ≤ year) (hm1 : 1 ≤ month) (hm2 : month ≤ 12) :
    0 ≤ calculate_delta_t year month := by
  rcases le_or_lt 2005 year with h | h
  · exact delta_t_nonneg_2005_plus year month h hm1 hm2
  · have hthis := delta_t_nonneg_1902_2004 ⟨(year - 1902).toNat, by omega⟩
      ⟨month - 1, by omega⟩
    have e1 : (1902 + (((year - 1902).toNat : ℕ) : ℤ)) = year := by omega
    have e2 : (month - 1) + 1 = month := by omega
    rwa [e1, e2] at hthis

/- Section: Grid generation (`scout.rs`) -/

/-- The `generate_grid` from `scout.rs`: latitude sweeps −60, −60+res, … while ≤ 70;
longitude sweeps −180, −180+res, … while < 180.  For a positive resolution the
two `while` loops visit exactly the values `-60 + i*res` for `0 ≤ i ≤ ⌊130/res⌋`
and `-180 + j*res` for `0 ≤ j < ⌈360/res⌉`, which is the closed form used here;
for a non-positive resolution the source loops would never terminate, so the
model is restricted to positive resolutions (all call sites pass 5.0 or 1.0). -/
def generate_grid (resolution_deg : ℚ) : List (ℚ × ℚ) :=
  if 0 < resolution_deg then
    (List.range (⌊(130 : ℚ) / resolution_deg⌋.toNat + 1)).flatMap (fun i =>
      (List.range (⌈(360 : ℚ) / resolution_deg⌉.toNat)).map (fun j =>
        (-60 + (i : ℚ) * resolution_deg, -180 + (j : ℚ) * resolution_deg)))
  else []

/-- The `generate_coarse_grid` from `scout.rs` (its comment says "648 points"). -/
def generate_coarse_grid : List (ℚ × ℚ) :=
  generate_grid 5

/-- C9 (amended): the coarse 5° grid has exactly 1944 = 27 × 72 points
(latitudes −60, −55, …, 70 and longitudes −180, −175, …, 175), not the ~650
of the claim (nor the 648 of the source comment). -/
theorem coarse_grid_card : generate_coarse_grid.length = 1944 := by
  rw [generate_coarse_grid, generate_grid, if_pos (by norm_num : (0 : ℚ) < 5)]
  have h1 : ⌊(130 : ℚ) / 5⌋.toNat + 1 = 27 := by
    have h : ⌊(130 : ℚ) / 5⌋ = 26 := by norm_num
    rw [h]; rfl
  have h2 : ⌈(360 : ℚ) / 5⌉.toNat = 72 := by
    have h : ⌈(360 : ℚ) / 5⌉ = 72 := by norm_num
    rw [h]; rfl
  rw [h1, h2, List.length_flatMap]
  simp [Function.comp_def]

/-- Counterexample to the original C9: the coarse grid has more than 1000
points, so it does not contain approximately 650 points. -/
theorem coarse_grid_not_650 : 1000 < generate_coarse_grid.length := by
  rw [coarse_grid_card]; norm_num

/- Section: Douglas-Peucker simplification (`scout.rs`) -/

/-- The `perpendicular_distance` from `scout.rs` (2D point-to-segment-line distance). -/
noncomputable def perpendicular_distance
    (point line_start line_end : ℝ × ℝ) : ℝ :=
  let px := point.1; let py := point.2
  let x1 := line_start.1; let y1 := line_start.2
  let x2 := line_end.1; let y2 := line_end.2
  let dx := x2 - x1
  let dy := y2 - y1
  if dx = 0 ∧ dy = 0 then
    Real.sqrt ((px - x1) ^ 2 + (py - y1) ^ 2)
  else
    |dy * px - dx * py + x2 * y1 - y2 * x1| / Real.sqrt (dx ^ 2 + dy ^ 2)

/-- The interior max-distance scan of `simplify_polyline`: fold over
`i = k+1` for `k < points.length - 2`, starting from `(0.0, 0)`. -/
noncomputable def max_perp_scan (points : List (ℝ × ℝ)) : ℝ × ℕ :=
  (List.range (points.length - 2)).foldl
    (fun acc k =>
      if perpendicular_distance (points.getD (k + 1) (0, 0))
          (points.getD 0 (0, 0)) (points.getD (points.length - 1) (0, 0)) > acc.1
      then (perpendicular_distance (points.getD (k + 1) (0, 0))
          (points.getD 0 (0, 0)) (points.getD (points.length - 1) (0, 0)), k + 1)
      else acc)
    ((0 : ℝ), (0 : ℕ))

lemma max_perp_scan_snd_le (points : List (ℝ × ℝ)) :
    (max_perp_scan points).2 ≤ points.length - 2 := by
  rw [max_perp_scan]
  have h : ∀ (l : List ℕ) (init : ℝ × ℕ), init.2 ≤ points.length - 2 →
      (∀ k ∈ l, k + 1 ≤ points.length - 2) →
      (l.foldl (fun acc k =>
        if perpendicular_distance (points.getD (k + 1) (0, 0))
            (points.getD 0 (0, 0)) (points.getD (points.length - 1) (0, 0)) > acc.1
        then (perpendicular_distance (points.getD (k + 1) (0, 0))
            (points.getD 0 (0, 0)) (points.getD (points.length - 1) (0, 0)), k + 1)
        else acc) init).2 ≤ points.length - 2 := by
    intro l
    induction l with
    | nil => intro init h0 _; exact h0
    | cons a t ih =>
      intro init h0 hl
      simp only [List.foldl_cons]
      apply ih
      · split_ifs
        · exact hl a (by simp)
        · exact h0
      · intro k hk; exact hl k (by simp [hk])
  apply h
  · simp
  · intro k hk
    rw [List.mem_range] at hk
    omega

lemma getD_zero_head? (l : List (ℝ × ℝ)) (h : l ≠ []) :
    l.head? = some (l.getD 0 (0, 0)) := by
  cases l with
  | nil => exact absurd rfl h
  | cons a t => rfl

lemma getD_last_getLast? (l : List (ℝ × ℝ)) (h : l ≠ []) :
    l.getLast? = some (l.getD (l.length - 1) (0, 0)) := by
  rw [List.getLast?_eq_getElem?, List.getD_eq_getElem?_getD]
  have hlen : l.length - 1 < l.length := by
    cases l with
    | nil => exact absurd rfl h
    | cons a t => simp
  rw [List.getElem?_eq_getElem hlen]
  rfl

/-- The `simplify_polyline` from `scout.rs`, with explicit recursion fuel: the Rust
recursion is not structurally decreasing when the scan picks index 0 (possible
only when every interior distance is 0 and the tolerance is negative), so the
model returns `none` when the fuel runs out instead of diverging. -/
noncomputable def simplify_polyline (fuel : ℕ) (points : List (ℝ × ℝ))
    (tolerance : ℝ) : Option (List (ℝ × ℝ)) :=
  match fuel with
  | 0 => none
  | fuel + 1 =>
    if points.length ≤ 2 then some points
    else
      if (max_perp_scan points).1 > tolerance then
        match simplify_polyline fuel (points.take ((max_perp_scan points).2 + 1)) tolerance,
              simplify_polyline fuel (points.drop (max_perp_scan points).2) tolerance with
        | some left, some right => some (left.dropLast ++ right)
        | _, _ => none
      else
        some [points.getD 0 (0, 0), points.getD (points.length - 1) (0, 0)]

/-- Partial correctness of `simplify_polyline`: whenever it returns, the
output is no longer than the input, preserves the first and last points, and
keeps at least two points whenever the input has at least two. -/
lemma simplify_polyline_sound (fuel : ℕ) :
    ∀ (points : List (ℝ × ℝ)) (tolerance : ℝ) (out : List (ℝ × ℝ)),
    simplify_polyline fuel points tolerance = some out →
    out.length ≤ points.length ∧ out.head? = points.head? ∧
    out.getLast? = points.getLast? ∧ (2 ≤ points.length → 2 ≤ out.length) := by
  induction fuel with
  | zero => intro points tol out h; simp [simplify_polyline] at h
  | succ fuel ih =>
    intro points tol out h
    rw [simplify_polyline] at h
    by_cases hlen : points.length ≤ 2
    · rw [if_pos hlen] at h
      obtain rfl : points = out := Option.some.inj h
      exact ⟨le_refl _, rfl, rfl, fun h2 => h2⟩
    · rw [if_neg hlen] at h
      push_neg at hlen
      have hne : points ≠ [] := by
        intro hnil; rw [hnil] at hlen; simp at hlen
      by_cases hmd : (max_perp_scan points).1 > tol
      · rw [if_pos hmd] at h
        set m := (max_perp_scan points).2 with hm
        have hmle : m ≤ points.length - 2 := max_perp_scan_snd_le points
        cases hl : simplify_polyline fuel (points.take (m + 1)) tol with
        | none => rw [hl] at h; cases hr : simplify_polyline fuel (points.drop m) tol <;>
            simp [hr] at h
        | some left =>
          cases hr : simplify_polyline fuel (points.drop m) tol with
          | none => rw [hl, hr] at h; simp at h
          | some right =>
            rw [hl, hr] at h
            obtain rfl : left.dropLast ++ right = out := Option.some.inj h
            obtain ⟨hLlen, hLhead, hLlast, hLtwo⟩ := ih _ _ _ hl
            obtain ⟨hRlen, hRhead, hRlast, hRtwo⟩ := ih _ _ _ hr
            have htakelen : (points.take (m + 1)).length = m + 1 := by
              rw [List.length_take]; omega
            have hdroplen : (points.drop m).length = points.length - m :=
              List.length_drop m points
            have hR2 : 2 ≤ right.length := by
              apply hRtwo; omega
            refine ⟨?_, ?_, ?_, fun _ => ?_⟩
            · rw [List.length_append, List.length_dropLast]
              omega
            · rw [List.head?_append]
              have hLne : left ≠ [] := by
                intro hnil
                rw [hnil] at hLhead
                simp [List.head?_take, getD_zero_head? points hne] at hLhead
              by_cases hL1 : left.length ≤ 1
              · have hm0 : m = 0 := by
                  by_contra h0
                  have h2 : 2 ≤ (points.take (m + 1)).length := by
                    rw [htakelen]; omega
                  have := hLtwo h2
                  omega
                have hdropnil : left.dropLast = [] := by
                  cases left with
                  | nil => rfl
                  | cons a t =>
                    cases t with
                    | nil => rfl
                    | cons b u => simp at hL1
                have hdr : points.drop m = points := by
                  rw [hm0]; exact List.drop_zero points
                rw [hdropnil]
                simpa [hdr] using hRhead
              · rw [List.head?_dropLast, if_pos (by omega : 1 < left.length), hLhead,
                  List.head?_take, if_neg (by omega : ¬ m + 1 = 0),
                  getD_zero_head? points hne]
                rfl
            · rw [List.getLast?_append, hRlast, List.getLast?_drop,
                if_neg (by omega : ¬ points.length ≤ m), getD_last_getLast? points hne]
              rfl
            · rw [List.length_append]
              omega
      · rw [if_neg hmd] at h
        obtain rfl : [points.getD 0 (0, 0), points.getD (points.length - 1) (0, 0)] = out :=
          Option.some.inj h
        refine ⟨by simp; omega, ?_, ?_, fun _ => by simp⟩
        · rw [getD_zero_head? points hne]; rfl
        · rw [getD_last_getLast? points hne]
          simp

lemma max_perp_scan_pos_idx (points : List (ℝ × ℝ))
    (h : 0 < (max_perp_scan points).1) : 1 ≤ (max_perp_scan points).2 := by
  rw [max_perp_scan] at h ⊢
  have inv : ∀ (l : List ℕ) (init : ℝ × ℕ), (0 < init.1 → 1 ≤ init.2) →
      (0 < (l.foldl (fun acc k =>
        if perpendicular_distance (points.getD (k + 1) (0, 0))
            (points.getD 0 (0, 0)) (points.getD (points.length - 1) (0, 0)) > acc.1
        then (perpendicular_distance (points.getD (k + 1) (0, 0))
            (points.getD 0 (0, 0)) (points.getD (points.length - 1) (0, 0)), k + 1)
        else acc) init).1 →
      1 ≤ (l.foldl (fun acc k =>
        if perpendicular_distance (points.getD (k + 1) (0, 0))
            (points.getD 0 (0, 0)) (points.getD (points.length - 1) (0, 0)) > acc.1
        then (perpendicular_distance (points.getD (k + 1) (0, 0))
            (points.getD 0 (0, 0)) (points.getD (points.length - 1) (0, 0)), k + 1)
        else acc) init).2) := by
    intro l
    induction l with
    | nil => intro init h0; exact h0
    | cons a t ih =>
      intro init h0
      simp only [List.foldl_cons]
      apply ih
      split_ifs
      · intro _; omega
      · exact h0
  exact inv _ _ (fun h0 => absurd h0 (lt_irrefl 0)) h

/-- For a nonnegative tolerance the recursion always terminates: fuel
`length + 1` suffices (the scan then picks an interior index, so both slices
are strictly shorter). -/
lemma simplify_polyline_terminates (tolerance : ℝ) (htol : 0 ≤ tolerance) :
    ∀ (fuel : ℕ) (points : List (ℝ × ℝ)), points.length < fuel →
    ∃ out, simplify_polyline fuel points tolerance = some out := by
  intro fuel
  induction fuel with
  | zero => intro points h; exact absurd h (by omega)
  | succ fuel ih =>
    intro points hlen
    rw [simplify_polyline]
    by_cases h2 : points.length ≤ 2
    · rw [if_pos h2]; exact ⟨points, rfl⟩
    · rw [if_neg h2]
      push_neg at h2
      by_cases hmd : (max_perp_scan points).1 > tolerance
      · rw [if_pos hmd]
        have hidx1 : 1 ≤ (max_perp_scan points).2 :=
          max_perp_scan_pos_idx points (lt_of_le_of_lt htol hmd)
        have hidx2 : (max_perp_scan points).2 ≤ points.length - 2 :=
          max_perp_scan_snd_le points
        obtain ⟨left, hl⟩ := ih (points.take ((max_perp_scan points).2 + 1))
          (by rw [List.length_take]; omega)
        obtain ⟨right, hr⟩ := ih (points.drop ((max_perp_scan points).2))
          (by rw [List.length_drop]; omega)
        exact ⟨left.dropLast ++ right, by rw [hl, hr]⟩
      · rw [if_neg hmd]
        exact ⟨_, rfl⟩

lemma max_perp_scan_collinear :
    max_perp_scan [((0 : ℝ), (0 : ℝ)), (1, 0), (2, 0)] = (0, 0) := by
  norm_num [max_perp_scan, perpendicular_distance, List.range_succ]

/-- Counterexample to the original C8: the claim quantifies over every
tolerance, but for a negative tolerance on a collinear polyline the interior
scan returns index 0 and the recursion calls itself on the full slice again —
in the fuel model no fuel ever suffices, matching the unbounded recursion of
the source. -/
theorem simplify_polyline_diverges :
    ¬ ∃ out fuel, simplify_polyline fuel [((0 : ℝ), (0 : ℝ)), (1, 0), (2, 0)] (-1)
      = some out := by
  rintro ⟨out, fuel, h⟩
  induction fuel generalizing out with
  | zero => simp [simplify_polyline] at h
  | succ fuel ih =>
    rw [simplify_polyline] at h
    rw [if_neg (by norm_num : ¬ ([((0 : ℝ), (0 : ℝ)), (1, 0), (2, 0)]).length ≤ 2)] at h
    rw [max_perp_scan_collinear] at h
    rw [if_pos (show ((0 : ℝ), (0 : ℕ)).1 > -1 by norm_num)] at h
    cases hr : simplify_polyline fuel
        (List.drop (0, 0).2 [((0 : ℝ), (0 : ℝ)), (1, 0), (2, 0)]) (-1) with
    | none =>
      rw [hr] at h
      cases hl : simplify_polyline fuel
          (List.take ((0, 0).2 + 1) [((0 : ℝ), (0 : ℝ)), (1, 0), (2, 0)]) (-1) <;>
        simp [hl] at h
    | some r =>
      exact ih r (by simpa using hr)

/-- C8 (amended): whenever `simplify_polyline` returns — for nonnegative
tolerance it always does, with fuel `length + 1` — the output polyline is no
longer than the input and its first and last points are exactly the input's
first and last points (stated via `head?`/`getLast?`, which also covers the
empty input); it also keeps at least two points whenever the input has at
least two.  For a negative tolerance the original claim fails: the recursion
need not terminate (`simplify_polyline_diverges`). -/
theorem simplify_polyline_spec (fuel : ℕ) (points : List (ℝ × ℝ))
    (tolerance : ℝ) :
    (∀ out, simplify_polyline fuel points tolerance = some out →
      out.length ≤ points.length ∧ out.head? = points.head? ∧
      out.getLast? = points.getLast? ∧ (2 ≤ points.length → 2 ≤ out.length)) ∧
    (0 ≤ tolerance →
      ∃ out, simplify_polyline (points.length + 1) points tolerance = some out) :=
  ⟨fun out h => simplify_polyline_sound fuel points tolerance out h,
   fun htol => simplify_polyline_terminates tolerance htol (points.length + 1)
     points (by omega)⟩

/- Section: scout.rs: types and constants -/

/-- The `EARTH_RADIUS_KM` constant from `scout.rs`. -/
noncomputable def EARTH_RADIUS_KM : ℝ := 6371

/-- The `DIMINISHING_WEIGHTS` constant from `scout.rs`. -/
noncomputable def DIMINISHING_WEIGHTS : List ℝ := [1, 0.6, 0.35, 0.2, 0.1, 0.08, 0.05]

/-- The `LifeCategory` enum from `scout.rs`. -/
inductive LifeCategory | Career | Love | Health | Home | Wellbeing | Wealth
deriving DecidableEq

/-- The `AspectType` enum from `scout.rs`. -/
inductive AspectType
  | Conjunction | Trine | Sextile | Square | Quincunx | Opposition | Sesquisquare
deriving DecidableEq

/-- The `KernelType` enum from `scout.rs`. -/
inductive KernelType | Linear | Gaussian | Exponential
deriving DecidableEq

/-- The `SortMode` enum from `scout.rs`. -/
inductive SortMode | BenefitFirst | IntensityFirst | BalancedBenefit
deriving DecidableEq

/-- The `ScoringConfig` struct from `scout.rs`. -/
structure ScoringConfig where
  kernel_type : KernelType
  kernel_parameter : ℝ
  max_distance_km : ℝ
  volatility_penalty : ℝ

/-- The `ScoringConfig::balanced` from `scout.rs`. -/
noncomputable def ScoringConfig.balanced : ScoringConfig :=
  ⟨KernelType.Gaussian, 180, 500, 0.3⟩

/-- The `Influence` struct from `scout.rs` (`rating` is a `u8`). -/
structure Influence where
  planet : String
  angle : String
  rating : ℕ
  aspect : Option AspectType
  distance_km : ℝ

/-- The `InfluenceContribution` struct from `scout.rs`. -/
structure InfluenceContribution where
  benefit : ℝ
  intensity : ℝ
  volatility : ℝ

/-- The `CityInfluenceSet` struct from `scout.rs`. -/
structure CityInfluenceSet where
  city_name : String
  country : String
  latitude : ℝ
  longitude : ℝ
  influences : List Influence

/-- The `CityScore` struct from `scout.rs`; `min_distance_km` is an `f64` that can
be `INFINITY`, modeled as `⊤ : EReal`. -/
structure CityScore where
  city_name : String
  country : String
  latitude : ℝ
  longitude : ℝ
  benefit_score : ℝ
  intensity_score : ℝ
  volatility_score : ℝ
  mixed_flag : Bool
  influence_count : ℕ
  min_distance_km : EReal

/-- The `CityRanking` struct from `scout.rs`. -/
structure CityRanking where
  city_name : String
  country : String
  latitude : ℝ
  longitude : ℝ
  benefit_score : ℝ
  intensity_score : ℝ
  volatility_score : ℝ
  mixed_flag : Bool
  top_influences : List (String × String × ℝ)
  nature : String

/- Section: scout.rs: kernels, ratings, aspects -/

/-- The `linear_kernel` from `scout.rs`: `(1.0 - d/bandwidth).max(0.0)`. -/
noncomputable def linear_kernel (distance_km bandwidth_km : ℝ) : ℝ :=
  max (1 - distance_km / bandwidth_km) 0

/-- The `gaussian_kernel` from `scout.rs`: `exp(-0.5 (d/σ)²)`. -/
noncomputable def gaussian_kernel (distance_km sigma_km : ℝ) : ℝ :=
  Real.exp (-0.5 * (distance_km / sigma_km) ^ 2)

/-- The `exponential_kernel` from `scout.rs`: `exp(-d/λ)`. -/
noncomputable def exponential_kernel (distance_km lambda_km : ℝ) : ℝ :=
  Real.exp (-distance_km / lambda_km)

/-- The `apply_kernel` from `scout.rs`. -/
noncomputable def apply_kernel (distance_km : ℝ) (config : ScoringConfig) : ℝ :=
  match config.kernel_type with
  | KernelType.Linear => linear_kernel distance_km config.kernel_parameter
  | KernelType.Gaussian => gaussian_kernel distance_km config.kernel_parameter
  | KernelType.Exponential => exponential_kernel distance_km config.kernel_parameter

/-- The `rating_to_benefit` from `scout.rs`: `(rating as f64) - 3.0`. -/
noncomputable def rating_to_benefit (rating : ℕ) : ℝ := (rating : ℝ) - 3

/-- The `rating_to_intensity` from `scout.rs`: `((rating as f64) - 3.0).abs()`. -/
noncomputable def rating_to_intensity (rating : ℕ) : ℝ := |(rating : ℝ) - 3|

/-- The `aspect_benefit_multiplier` from `scout.rs`. -/
noncomputable def aspect_benefit_multiplier : AspectType → ℝ
  | .Conjunction => 1
  | .Trine => 0.7
  | .Sextile => 0.7
  | .Square => -0.6
  | .Quincunx => 0.3
  | .Opposition => -0.5
  | .Sesquisquare => -0.4

/-- The `aspect_intensity_multiplier` from `scout.rs`. -/
noncomputable def aspect_intensity_multiplier : AspectType → ℝ
  | .Conjunction => 1
  | .Trine => 0.6
  | .Sextile => 0.6
  | .Square => 0.85
  | .Quincunx => 0.4
  | .Opposition => 0.8
  | .Sesquisquare => 0.7

/-- The `calculate_influence_contribution` from `scout.rs`. -/
noncomputable def calculate_influence_contribution (influence : Influence)
    (config : ScoringConfig) : InfluenceContribution :=
  let kernel := apply_kernel influence.distance_km config
  let base_benefit := rating_to_benefit influence.rating
  let base_intensity := rating_to_intensity influence.rating
  let mults := match influence.aspect with
    | some aspect =>
        (aspect_benefit_multiplier aspect, aspect_intensity_multiplier aspect)
    | none => ((1 : ℝ), (1 : ℝ))
  let benefit := base_benefit * mults.1 * kernel
  let intensity := base_intensity * mults.2 * kernel
  let volatility := if mults.1 < 0 ∧ base_benefit ≠ 0 then |base_benefit| * kernel else 0
  ⟨benefit, intensity, volatility⟩

/- Section: scout.rs: calculate_city_score -/

/-- The `contributions` vector of `calculate_city_score`. -/
noncomputable def city_contributions (city : CityInfluenceSet)
    (config : ScoringConfig) : List (InfluenceContribution × ℝ) :=
  city.influences.map (fun inf =>
    (calculate_influence_contribution inf config, inf.distance_km))

/-- The `contributions` vector after the stable sort by `|benefit|` descending
(`sort_by` with `b.benefit.abs().partial_cmp(&a.benefit.abs())`). -/
noncomputable def sorted_contributions (city : CityInfluenceSet)
    (config : ScoringConfig) : List (InfluenceContribution × ℝ) :=
  (city_contributions city config).mergeSort
    (fun a b => decide (|b.1.benefit| ≤ |a.1.benefit|))

/-- The `benefit_score_raw` of `calculate_city_score`: the top-K weighted sum
(`take(k).enumerate().map(benefit * W[i]).sum()` written with `zipWith`). -/
noncomputable def benefit_score_raw (city : CityInfluenceSet)
    (config : ScoringConfig) : ℝ :=
  (List.zipWith (fun c w => c.1.benefit * w)
    ((sorted_contributions city config).take DIMINISHING_WEIGHTS.length)
    DIMINISHING_WEIGHTS).sum

/-- The `intensity_score_raw` of `calculate_city_score`. -/
noncomputable def intensity_score_raw (city : CityInfluenceSet)
    (config : ScoringConfig) : ℝ :=
  (List.zipWith (fun c w => c.1.intensity * w)
    ((sorted_contributions city config).take DIMINISHING_WEIGHTS.length)
    DIMINISHING_WEIGHTS).sum

/-- The `weighted_positive` of `calculate_city_score` (`c.benefit.max(0.0) * W[i]`). -/
noncomputable def weighted_positive (city : CityInfluenceSet)
    (config : ScoringConfig) : ℝ :=
  (List.zipWith (fun c w => max c.1.benefit 0 * w)
    ((sorted_contributions city config).take DIMINISHING_WEIGHTS.length)
    DIMINISHING_WEIGHTS).sum

/-- The `weighted_negative` of `calculate_city_score` (`(-c.benefit).max(0.0) * W[i]`). -/
noncomputable def weighted_negative (city : CityInfluenceSet)
    (config : ScoringConfig) : ℝ :=
  (List.zipWith (fun c w => max (-c.1.benefit) 0 * w)
    ((sorted_contributions city config).take DIMINISHING_WEIGHTS.length)
    DIMINISHING_WEIGHTS).sum

/-- The `volatility_raw` of `calculate_city_score`: `sqrt(P * N)`. -/
noncomputable def volatility_raw (city : CityInfluenceSet)
    (config : ScoringConfig) : ℝ :=
  Real.sqrt (weighted_positive city config * weighted_negative city config)

/-- The `calculate_city_score` from `scout.rs`. -/
noncomputable def calculate_city_score (city : CityInfluenceSet)
    (config : ScoringConfig) : CityScore :=
  if city.influences.isEmpty then
    ⟨city.city_name, city.country, city.latitude, city.longitude,
     50, 0, 0, false, 0, ⊤⟩
  else
    ⟨city.city_name, city.country, city.latitude, city.longitude,
     rustClamp (50 + benefit_score_raw city config * 10.5) 0 100,
     rustClamp (intensity_score_raw city config * 21) 0 100,
     rustClamp (volatility_raw city config * 42) 0 100,
     decide (weighted_positive city config > 0.5) &&
       decide (weighted_negative city config > 0.5),
     city.influences.length,
     (sorted_contributions city config).foldl (fun m p => min m (p.2 : EReal)) ⊤⟩

/- Section: Bounds lemmas for the scoring stack -/

lemma apply_kernel_bounds (d : ℝ) (config : ScoringConfig)
    (hd : 0 ≤ d) (hp : 0 < config.kernel_parameter) :
    0 ≤ apply_kernel d config ∧ apply_kernel d config ≤ 1 := by
  rcases config with ⟨kt, kp, mx, vp⟩
  simp only at hp
  cases kt with
  | Linear =>
    simp only [apply_kernel, linear_kernel]
    constructor
    · exact le_max_right _ _
    · apply max_le _ (by norm_num)
      have : 0 ≤ d / kp := div_nonneg hd hp.le
      linarith
  | Gaussian =>
    simp only [apply_kernel, gaussian_kernel]
    constructor
    · exact (Real.exp_pos _).le
    · rw [Real.exp_le_one_iff]
      nlinarith [sq_nonneg (d / kp)]
  | Exponential =>
    simp only [apply_kernel, exponential_kernel]
    constructor
    · exact (Real.exp_pos _).le
    · rw [Real.exp_le_one_iff, neg_div]
      have : 0 ≤ d / kp := div_nonneg hd hp.le
      linarith

lemma contribution_bounds (inf : Influence) (config : ScoringConfig)
    (hr1 : 1 ≤ inf.rating) (hr2 : inf.rating ≤ 5)
    (hd : 0 ≤ inf.distance_km) (hp : 0 < config.kernel_parameter) :
    |(calculate_influence_contribution inf config).benefit| ≤ 2 ∧
    0 ≤ (calculate_influence_contribution inf config).intensity ∧
    (calculate_influence_contribution inf config).intensity ≤ 2 := by
  obtain ⟨hk0, hk1⟩ := apply_kernel_bounds inf.distance_km config hd hp
  have hbb : |rating_to_benefit inf.rating| ≤ 2 := by
    rw [rating_to_benefit, abs_le]
    have c1 : (1 : ℝ) ≤ (inf.rating : ℝ) := by exact_mod_cast hr1
    have c2 : ((inf.rating : ℝ)) ≤ 5 := by exact_mod_cast hr2
    constructor <;> linarith
  have hbi : 0 ≤ rating_to_intensity inf.rating ∧ rating_to_intensity inf.rating ≤ 2 := by
    rw [rating_to_intensity]
    refine ⟨abs_nonneg _, ?_⟩
    rw [abs_le]
    have c1 : (1 : ℝ) ≤ (inf.rating : ℝ) := by exact_mod_cast hr1
    have c2 : ((inf.rating : ℝ)) ≤ 5 := by exact_mod_cast hr2
    constructor <;> linarith
  have hmult : |(match inf.aspect with
      | some aspect =>
          (aspect_benefit_multiplier aspect, aspect_intensity_multiplier aspect)
      | none => ((1 : ℝ), (1 : ℝ))).1| ≤ 1 ∧
      0 ≤ (match inf.aspect with
      | some aspect =>
          (aspect_benefit_multiplier aspect, aspect_intensity_multiplier aspect)
      | none => ((1 : ℝ), (1 : ℝ))).2 ∧
      (match inf.aspect with
      | some aspect =>
          (aspect_benefit_multiplier aspect, aspect_intensity_multiplier aspect)
      | none => ((1 : ℝ), (1 : ℝ))).2 ≤ 1 := by
    rcases inf.aspect with _ | a
    · norm_num
    · cases a <;>
        simp [aspect_benefit_multiplier, aspect_intensity_multiplier, abs_le] <;>
        norm_num
  obtain ⟨hm1, hm20, hm21⟩ := hmult
  simp only [calculate_influence_contribution]
  refine ⟨?_, ?_, ?_⟩
  · rw [abs_mul, abs_mul, abs_of_nonneg hk0]
    have h1 : |rating_to_benefit inf.rating| * |(match inf.aspect with
        | some aspect =>
            (aspect_benefit_multiplier aspect, aspect_intensity_multiplier aspect)
        | none => ((1 : ℝ), (1 : ℝ))).1| ≤ 2 * 1 :=
      mul_le_mul hbb hm1 (abs_nonneg _) (by norm_num)
    nlinarith [abs_nonneg (rating_to_benefit inf.rating)]
  · have := hbi.1
    positivity
  · have h1 : rating_to_intensity inf.rating * (match inf.aspect with
        | some aspect =>
            (aspect_benefit_multiplier aspect, aspect_intensity_multiplier aspect)
        | none => ((1 : ℝ), (1 : ℝ))).2 ≤ 2 * 1 :=
      mul_le_mul hbi.2 hm21 hm20 (by norm_num)
    nlinarith [hbi.1, hbi.2]

lemma zipWith_weighted_abs_le {α : Type} (f : α → ℝ) (B : ℝ) (hB : 0 ≤ B) :
    ∀ (l : List α) (ws : List ℝ), (∀ c ∈ l, |f c| ≤ B) → (∀ w ∈ ws, 0 ≤ w) →
    |(List.zipWith (fun c w => f c * w) l ws).sum| ≤ B * ws.sum := by
  intro l
  induction l with
  | nil =>
    intro ws _ hw
    simp only [List.zipWith_nil_left, List.sum_nil, abs_zero]
    exact mul_nonneg hB (List.sum_nonneg hw)
  | cons a t ih =>
    intro ws hl hw
    cases ws with
    | nil => simp
    | cons w ws' =>
      simp only [List.zipWith_cons_cons, List.sum_cons]
      have h1 := ih ws' (fun c hc => hl c (by simp [hc]))
        (fun x hx => hw x (by simp [hx]))
      have hw0 : 0 ≤ w := hw w (by simp)
      have h2 : |f a * w| ≤ B * w := by
        rw [abs_mul, abs_of_nonneg hw0]
        exact mul_le_mul_of_nonneg_right (hl a (by simp)) hw0
      calc |f a * w + (List.zipWith (fun c w => f c * w) t ws').sum|
          ≤ |f a * w| + |(List.zipWith (fun c w => f c * w) t ws').sum| := abs_add _ _
        _ ≤ B * w + B * ws'.sum := add_le_add h2 h1
        _ = B * (w + ws'.sum) := by ring

lemma zipWith_weighted_nonneg {α : Type} (f : α → ℝ) :
    ∀ (l : List α) (ws : List ℝ), (∀ c ∈ l, 0 ≤ f c) → (∀ w ∈ ws, 0 ≤ w) →
    0 ≤ (List.zipWith (fun c w => f c * w) l ws).sum := by
  intro l
  induction l with
  | nil => intro ws _ _; simp
  | cons a t ih =>
    intro ws hl hw
    cases ws with
    | nil => simp
    | cons w ws' =>
      simp only [List.zipWith_cons_cons, List.sum_cons]
      have h1 := ih ws' (fun c hc => hl c (by simp [hc]))
        (fun x hx => hw x (by simp [hx]))
      have h2 : 0 ≤ f a * w := mul_nonneg (hl a (by simp)) (hw w (by simp))
      linarith

lemma zipWith_pos_neg_le {α : Type} (f : α → ℝ) (B : ℝ) (hB : 0 ≤ B) :
    ∀ (l : List α) (ws : List ℝ), (∀ c ∈ l, |f c| ≤ B) → (∀ w ∈ ws, 0 ≤ w) →
    (List.zipWith (fun c w => max (f c) 0 * w) l ws).sum +
      (List.zipWith (fun c w => max (-(f c)) 0 * w) l ws).sum ≤ B * ws.sum := by
  intro l
  induction l with
  | nil =>
    intro ws _ hw
    simp only [List.zipWith_nil_left, List.sum_nil, add_zero]
    exact mul_nonneg hB (List.sum_nonneg hw)
  | cons a t ih =>
    intro ws hl hw
    cases ws with
    | nil => simp
    | cons w ws' =>
      simp only [List.zipWith_cons_cons, List.sum_cons]
      have h1 := ih ws' (fun c hc => hl c (by simp [hc]))
        (fun x hx => hw x (by simp [hx]))
      have hw0 : 0 ≤ w := hw w (by simp)
      have habs : max (f a) 0 + max (-(f a)) 0 = |f a| := by
        rcases le_total 0 (f a) with h | h
        · rw [max_eq_left h, max_eq_right (by linarith : -(f a) ≤ 0),
            abs_of_nonneg h, add_zero]
        · rw [max_eq_right h, max_eq_left (by linarith : (0 : ℝ) ≤ -(f a)),
            abs_of_nonpos h, zero_add]
      have h2 : max (f a) 0 * w + max (-(f a)) 0 * w ≤ B * w := by
        have : (max (f a) 0 + max (-(f a)) 0) * w ≤ B * w :=
          mul_le_mul_of_nonneg_right (by rw [habs]; exact hl a (by simp)) hw0
        nlinarith [this]
      calc max (f a) 0 * w + (List.zipWith (fun c w => max (f c) 0 * w) t ws').sum +
            (max (-(f a)) 0 * w + (List.zipWith (fun c w => max (-(f c)) 0 * w) t ws').sum)
          = (max (f a) 0 * w + max (-(f a)) 0 * w) +
            ((List.zipWith (fun c w => max (f c) 0 * w) t ws').sum +
             (List.zipWith (fun c w => max (-(f c)) 0 * w) t ws').sum) := by ring
        _ ≤ B * w + B * ws'.sum := add_le_add h2 h1
        _ = B * (w + ws'.sum) := by ring

lemma weights_nonneg : ∀ w ∈ DIMINISHING_WEIGHTS, (0 : ℝ) ≤ w := by
  intro w hw
  simp only [DIMINISHING_WEIGHTS, List.mem_cons, List.mem_singleton] at hw
  rcases hw with h | h | h | h | h | h | h | h <;> first | (rw [h]; norm_num) | simp at *

lemma weights_sum : DIMINISHING_WEIGHTS.sum = 2.38 := by
  norm_num [DIMINISHING_WEIGHTS]

lemma sorted_take_mem_bounds (city : CityInfluenceSet) (config : ScoringConfig)
    (hr : ∀ inf ∈ city.influences, 1 ≤ inf.rating ∧ inf.rating ≤ 5)
    (hd : ∀ inf ∈ city.influences, 0 ≤ inf.distance_km)
    (hp : 0 < config.kernel_parameter) :
    ∀ c ∈ (sorted_contributions city config).take DIMINISHING_WEIGHTS.length,
      |c.1.benefit| ≤ 2 ∧ 0 ≤ c.1.intensity ∧ c.1.intensity ≤ 2 := by
  intro c hc
  have hc1 : c ∈ sorted_contributions city config := List.mem_of_mem_take hc
  rw [sorted_contributions, List.mem_mergeSort] at hc1
  rw [city_contributions, List.mem_map] at hc1
  obtain ⟨inf, hinf, rfl⟩ := hc1
  exact contribution_bounds inf config (hr inf hinf).1 (hr inf hinf).2
    (hd inf hinf) hp

lemma raw_scores_empty (city : CityInfluenceSet) (config : ScoringConfig)
    (h : city.influences = []) :
    benefit_score_raw city config = 0 ∧ intensity_score_raw city config = 0 ∧
    volatility_raw city config = 0 := by
  have hc : city_contributions city config = [] := by
    rw [city_contributions, h]; rfl
  have hs : sorted_contributions city config = [] := by
    rw [sorted_contributions, hc]; simp
  refine ⟨?_, ?_, ?_⟩
  · rw [benefit_score_raw, hs]; rfl
  · rw [intensity_score_raw, hs]; rfl

  · rw [volatility_raw]
    have h1 : weighted_positive city config = 0 := by rw [weighted_positive, hs]; rfl
    have h2 : weighted_negative city config = 0 := by rw [weighted_negative, hs]; rfl
    rw [h1, h2, mul_zero, Real.sqrt_zero]

lemma raw_scores_bounds (city : CityInfluenceSet) (config : ScoringConfig)
    (hr : ∀ inf ∈ city.influences, 1 ≤ inf.rating ∧ inf.rating ≤ 5)
    (hd : ∀ inf ∈ city.influences, 0 ≤ inf.distance_km)
    (hp : 0 < config.kernel_parameter) :
    |benefit_score_raw city config| ≤ 4.76 ∧
    (0 ≤ intensity_score_raw city config ∧ intensity_score_raw city config ≤ 4.76) ∧
    (0 ≤ volatility_raw city config ∧ volatility_raw city config ≤ 2.38) := by
  have hmem := sorted_take_mem_bounds city config hr hd hp
  have habs := zipWith_weighted_abs_le (fun c : InfluenceContribution × ℝ => c.1.benefit)
    2 (by norm_num) _ DIMINISHING_WEIGHTS (fun c hc => (hmem c hc).1) weights_nonneg
  have hint_abs := zipWith_weighted_abs_le
    (fun c : InfluenceContribution × ℝ => c.1.intensity)
    2 (by norm_num) _ DIMINISHING_WEIGHTS
    (fun c hc => by rw [abs_of_nonneg (hmem c hc).2.1]; exact (hmem c hc).2.2)
    weights_nonneg
  have hint_nn := zipWith_weighted_nonneg
    (fun c : InfluenceContribution × ℝ => c.1.intensity)
    ((sorted_contributions city config).take DIMINISHING_WEIGHTS.length)
    DIMINISHING_WEIGHTS (fun c hc => (hmem c hc).2.1) weights_nonneg
  have hpos_nn := zipWith_weighted_nonneg
    (fun c : InfluenceContribution × ℝ => max c.1.benefit 0)
    ((sorted_contributions city config).take DIMINISHING_WEIGHTS.length)
    DIMINISHING_WEIGHTS (fun c _ => le_max_right _ _) weights_nonneg
  have hneg_nn := zipWith_weighted_nonneg
    (fun c : InfluenceContribution × ℝ => max (-c.1.benefit) 0)
    ((sorted_contributions city config).take DIMINISHING_WEIGHTS.length)
    DIMINISHING_WEIGHTS (fun c _ => le_max_right _ _) weights_nonneg
  have hpn := zipWith_pos_neg_le (fun c : InfluenceContribution × ℝ => c.1.benefit)
    2 (by norm_num) _ DIMINISHING_WEIGHTS (fun c hc => (hmem c hc).1) weights_nonneg
  rw [weights_sum] at habs hint_abs hpn
  refine ⟨?_, ⟨hint_nn, ?_⟩, ⟨Real.sqrt_nonneg _, ?_⟩⟩
  · rw [benefit_score_raw]
    calc |(List.zipWith (fun c w => c.1.benefit * w)
        ((sorted_contributions city config).take DIMINISHING_WEIGHTS.length)
        DIMINISHING_WEIGHTS).sum| ≤ 2 * 2.38 := habs
      _ = 4.76 := by norm_num
  · rw [intensity_score_raw]
    have := (abs_le.mp hint_abs).2
    linarith
  · rw [volatility_raw]
    have hP : 0 ≤ weighted_positive city config := hpos_nn
    have hN : 0 ≤ weighted_negative city config := hneg_nn
    have hsum : weighted_positive city config + weighted_negative city config
        ≤ 2 * 2.38 := hpn
    have hprod : weighted_positive city config * weighted_negative city config
        ≤ 2.38 ^ 2 := by
      nlinarith [sq_nonneg (weighted_positive city config - weighted_negative city config),
        mul_nonneg hP hN]
    calc Real.sqrt (weighted_positive city config * weighted_negative city config)
        ≤ Real.sqrt (2.38 ^ 2) := Real.sqrt_le_sqrt hprod
      _ = 2.38 := by
        rw [show ((2.38 : ℝ) ^ 2) = 2.38 * 2.38 by ring]
        exact Real.sqrt_mul_self (by norm_num)

/-- C1: for every city influence set with ratings in 1..5 and nonnegative
distances, and every config with positive kernel parameter,
`calculate_city_score` returns benefit, intensity and volatility scores in
[0, 100], and each equals its raw normalized value (50 + raw·10.5, raw·21,
raw·42) — the final clamp never changes the result. -/
theorem city_score_bounds (city : CityInfluenceSet) (config : ScoringConfig)
    (hr : ∀ inf ∈ city.influences, 1 ≤ inf.rating ∧ inf.rating ≤ 5)
    (hd : ∀ inf ∈ city.influences, 0 ≤ inf.distance_km)
    (hp : 0 < config.kernel_parameter) :
    (0 ≤ (calculate_city_score city config).benefit_score ∧
      (calculate_city_score city config).benefit_score ≤ 100) ∧
    (0 ≤ (calculate_city_score city config).intensity_score ∧
      (calculate_city_score city config).intensity_score ≤ 100) ∧
    (0 ≤ (calculate_city_score city config).volatility_score ∧
      (calculate_city_score city config).volatility_score ≤ 100) ∧
    (calculate_city_score city config).benefit_score
      = 50 + benefit_score_raw city config * 10.5 ∧
    (calculate_city_score city config).intensity_score
      = intensity_score_raw city config * 21 ∧
    (calculate_city_score city config).volatility_score
      = volatility_raw city config * 42 := by
  by_cases he : city.influences.isEmpty
  · have hemp : city.influences = [] := List.isEmpty_iff.mp he
    obtain ⟨e1, e2, e3⟩ := raw_scores_empty city config hemp
    rw [calculate_city_score, if_pos he]
    dsimp only
    rw [e1, e2, e3]
    norm_num
  · obtain ⟨hb, ⟨hi0, hi1⟩, hv0, hv1⟩ := raw_scores_bounds city config hr hd hp
    obtain ⟨hb1, hb2⟩ := abs_le.mp hb
    rw [calculate_city_score, if_neg he]
    dsimp only
    have hclamp : ∀ x : ℝ, 0 ≤ x → x ≤ 100 → rustClamp x 0 100 = x := by
      intro x h1 h2
      rw [rustClamp, max_eq_left h1, min_eq_left h2]
    have c1 : 0 ≤ 50 + benefit_score_raw city config * 10.5 := by linarith
    have c2 : 50 + benefit_score_raw city config * 10.5 ≤ 100 := by linarith
    have c3 : 0 ≤ intensity_score_raw city config * 21 := by linarith
    have c4 : intensity_score_raw city config * 21 ≤ 100 := by linarith
    have c5 : 0 ≤ volatility_raw city config * 42 := by linarith
    have c6 : volatility_raw city config * 42 ≤ 100 := by linarith
    rw [hclamp _ c1 c2, hclamp _ c3 c4, hclamp _ c5 c6]
    exact ⟨⟨c1, c2⟩, ⟨c3, c4⟩, ⟨c5, c6⟩, rfl, rfl, rfl⟩

/- Section: scout.rs: category tables and ranking -/

/-- The `is_beneficial_for_category` from `scout.rs`. -/
def is_beneficial_for_category (planet angle : String)
    (category : LifeCategory) : Bool :=
  match category with
  | .Career =>
      (planet == "Sun" && angle == "MC") || (planet == "Jupiter" && angle == "MC") ||
      (planet == "Mercury" && angle == "MC") || (planet == "Venus" && angle == "MC") ||
      (planet == "Mars" && angle == "MC") || (planet == "Saturn" && angle == "MC") ||
      (planet == "Pluto" && angle == "MC") || (planet == "Sun" && angle == "ASC") ||
      (planet == "Mars" && angle == "ASC") || (planet == "Jupiter" && angle == "ASC") ||
      (planet == "Mercury" && angle == "ASC")
  | .Love =>
      (planet == "Venus" && angle == "DSC") || (planet == "Sun" && angle == "DSC") ||
      (planet == "Jupiter" && angle == "DSC") || (planet == "Moon" && angle == "DSC") ||
      (planet == "Venus" && angle == "ASC") || (planet == "Sun" && angle == "ASC") ||
      (planet == "Mars" && angle == "ASC") || (planet == "Jupiter" && angle == "ASC")
  | .Health =>
      (planet == "Sun" && angle == "ASC") || (planet == "Jupiter" && angle == "ASC") ||
      (planet == "Moon" && angle == "ASC") || (planet == "Mars" && angle == "ASC") ||
      (planet == "Venus" && angle == "IC") || (planet == "Jupiter" && angle == "MC") ||
      (planet == "Venus" && angle == "MC") || (planet == "Sun" && angle == "IC") ||
      (planet == "Moon" && angle == "IC")
  | .Home =>
      (planet == "Venus" && angle == "IC") || (planet == "Moon" && angle == "IC") ||
      (planet == "Jupiter" && angle == "IC") || (planet == "Sun" && angle == "IC") ||
      (planet == "Saturn" && angle == "IC") || (planet == "Venus" && angle == "ASC") ||
      (planet == "Moon" && angle == "ASC") || (planet == "Jupiter" && angle == "ASC") ||
      (planet == "Mercury" && angle == "IC")
  | .Wellbeing =>
      (planet == "Venus" && angle == "ASC") || (planet == "Venus" && angle == "IC") ||
      (planet == "Venus" && angle == "DSC") || (planet == "Jupiter" && angle == "ASC") ||
      (planet == "Jupiter" && angle == "MC") || (planet == "Jupiter" && angle == "IC") ||
      (planet == "Jupiter" && angle == "DSC") || (planet == "Moon" && angle == "IC") ||
      (planet == "Moon" && angle == "ASC") || (planet == "Sun" && angle == "ASC") ||
      (planet == "Sun" && angle == "IC") || (planet == "Neptune" && angle == "ASC")
  | .Wealth =>
      (planet == "Jupiter" && angle == "MC") || (planet == "Jupiter" && angle == "IC") ||
      (planet == "Jupiter" && angle == "ASC") || (planet == "Jupiter" && angle == "DSC") ||
      (planet == "Venus" && angle == "MC") || (planet == "Venus" && angle == "ASC") ||
      (planet == "Sun" && angle == "MC") || (planet == "Sun" && angle == "ASC") ||
      (planet == "Mercury" && angle == "MC") || (planet == "Mercury" && angle == "ASC") ||
      (planet == "Pluto" && angle == "MC")

/-- The `is_challenging_for_category` from `scout.rs`. -/
def is_challenging_for_category (planet angle : String)
    (category : LifeCategory) : Bool :=
  match category with
  | .Career =>
      (planet == "Neptune" && angle == "MC") || (planet == "Uranus" && angle == "MC") ||
      (planet == "Moon" && angle == "MC")
  | .Love =>
      (planet == "Saturn" && angle == "DSC") || (planet == "Pluto" && angle == "DSC") ||
      (planet == "Mars" && angle == "DSC") || (planet == "Uranus" && angle == "DSC") ||
      (planet == "Neptune" && angle == "DSC")
  | .Health =>
      (planet == "Saturn" && angle == "ASC") || (planet == "Saturn" && angle == "MC") ||
      (planet == "Neptune" && angle == "ASC") || (planet == "Pluto" && angle == "ASC") ||
      (planet == "Uranus" && angle == "ASC")
  | .Home =>
      (planet == "Uranus" && angle == "IC") || (planet == "Neptune" && angle == "IC") ||
      (planet == "Pluto" && angle == "IC") || (planet == "Saturn" && angle == "IC") ||
      (planet == "Mars" && angle == "IC")
  | .Wellbeing =>
      (planet == "Saturn" && angle == "ASC") || (planet == "Saturn" && angle == "MC") ||
      (planet == "Neptune" && angle == "MC") || (planet == "Pluto" && angle == "ASC") ||
      (planet == "Pluto" && angle == "MC") || (planet == "Mars" && angle == "ASC")
  | .Wealth =>
      (planet == "Neptune" && angle == "MC") || (planet == "Neptune" && angle == "IC") ||
      (planet == "Uranus" && angle == "MC") || (planet == "Uranus" && angle == "IC") ||
      (planet == "Saturn" && angle == "ASC")

/-- The `filter_influences_by_category` from `scout.rs`. -/
def filter_influences_by_category (influences : List Influence)
    (category : LifeCategory) : List Influence :=
  influences.filter (fun inf =>
    is_beneficial_for_category inf.planet inf.angle category ||
    is_challenging_for_category inf.planet inf.angle category)

/-- The per-city closure of `rank_cities_by_category`'s `filter_map`. -/
noncomputable def rank_city (city : CityInfluenceSet) (category : LifeCategory)
    (config : ScoringConfig) : Option CityRanking :=
  let filtered_influences := filter_influences_by_category city.influences category
  if filtered_influences.isEmpty then none
  else
    let filtered_city : CityInfluenceSet :=
      ⟨city.city_name, city.country, city.latitude, city.longitude, filtered_influences⟩
    let score := calculate_city_score filtered_city config
    let nature :=
      if score.mixed_flag then "mixed"
      else if score.benefit_score > 52 then "beneficial"
      else if score.benefit_score < 48 then "challenging"
      else "mixed"
    some ⟨score.city_name, score.country, score.latitude, score.longitude,
      score.benefit_score, score.intensity_score, score.volatility_score,
      score.mixed_flag,
      (filtered_influences.take 3).map (fun inf => (inf.planet, inf.angle, inf.distance_km)),
      nature⟩

/-- The `rank_cities_by_category` from `scout.rs`: filter-map then a stable sort
picked by `sort_mode` (descending comparators, modeled with `mergeSort`). -/
noncomputable def rank_cities_by_category (cities : List CityInfluenceSet)
    (category : LifeCategory) (config : ScoringConfig) (sort_mode : SortMode) :
    List CityRanking :=
  let rankings := cities.filterMap (fun city => rank_city city category config)
  match sort_mode with
  | SortMode.BenefitFirst =>
      rankings.mergeSort (fun a b => decide (b.benefit_score ≤ a.benefit_score))
  | SortMode.IntensityFirst =>
      rankings.mergeSort (fun a b => decide (b.intensity_score ≤ a.intensity_score))
  | SortMode.BalancedBenefit =>
      rankings.mergeSort (fun a b =>
        decide (b.benefit_score - b.volatility_score * config.volatility_penalty ≤
          a.benefit_score - a.volatility_score * config.volatility_penalty))

/-- C10: a city none of whose influences is in the chosen category's
beneficial or challenging tables (so `filter_influences_by_category` returns
[]) is omitted from `rank_cities_by_category`'s output entirely: deleting it
from the city list does not change the returned rankings. -/
theorem rank_cities_omits_irrelevant (pre post : List CityInfluenceSet)
    (city : CityInfluenceSet) (category : LifeCategory) (config : ScoringConfig)
    (sort_mode : SortMode)
    (h : filter_influences_by_category city.influences category = []) :
    rank_cities_by_category (pre ++ city :: post) category config sort_mode =
      rank_cities_by_category (pre ++ post) category config sort_mode := by
  have hnone : rank_city city category config = none := by
    simp [rank_city, h]
  have hfm : (pre ++ city :: post).filterMap (fun c => rank_city c category config)
      = (pre ++ post).filterMap (fun c => rank_city c category config) := by
    rw [List.filterMap_append, List.filterMap_append, List.filterMap_cons, hnone]
  simp only [rank_cities_by_category]
  rw [hfm]

/- Section: scout.rs: geodetic functions and the scout pipeline -/

/-- Rust `f64::to_radians`. -/
noncomputable def to_radians (x : ℝ) : ℝ := x * (Real.pi / 180)

/-- The `haversine_distance` function from `scout.rs`. -/
noncomputable def haversine_distance (lat1 lon1 lat2 lon2 : ℝ) : ℝ :=
  let lat1_rad := to_radians lat1
  let lat2_rad := to_radians lat2
  let dlat := to_radians (lat2 - lat1)
  let dlon := to_radians (lon2 - lon1)
  let a := Real.sin (dlat / 2) ^ 2 +
    Real.cos lat1_rad * Real.cos lat2_rad * Real.sin (dlon / 2) ^ 2
  let c := 2 * atan2 (Real.sqrt a) (Real.sqrt (1 - a))
  EARTH_RADIUS_KM * c

/-- The `cross_track_distance` from `scout.rs`; returns (cross, along) in km.
`acos` of the clamped ratio is total on ℝ, so the `is_nan` fallback branch of
the source is unreachable in the exact-arithmetic model. -/
noncomputable def cross_track_distance (lat_pt lon_pt lat1 lon1 lat2 lon2 : ℝ) :
    ℝ × ℝ :=
  let lat_pt_rad := to_radians lat_pt
  let lon_pt_rad := to_radians lon_pt
  let lat1_rad := to_radians lat1
  let lon1_rad := to_radians lon1
  let lat2_rad := to_radians lat2
  let lon2_rad := to_radians lon2
  let d13 := haversine_distance lat_pt lon_pt lat1 lon1 / EARTH_RADIUS_KM
  let y13 := Real.sin (lon_pt_rad - lon1_rad) * Real.cos lat_pt_rad
  let x13 := Real.cos lat1_rad * Real.sin lat_pt_rad -
    Real.sin lat1_rad * Real.cos lat_pt_rad * Real.cos (lon_pt_rad - lon1_rad)
  let bearing_13 := atan2 y13 x13
  let y12 := Real.sin (lon2_rad - lon1_rad) * Real.cos lat2_rad
  let x12 := Real.cos lat1_rad * Real.sin lat2_rad -
    Real.sin lat1_rad * Real.cos lat2_rad * Real.cos (lon2_rad - lon1_rad)
  let bearing_12 := atan2 y12 x12
  let dxt_raw := Real.sin d13 * Real.sin (bearing_13 - bearing_12)
  let dxt := Real.arcsin (rustClamp dxt_raw (-1) 1)
  let cross_track := |dxt| * EARTH_RADIUS_KM
  let cos_dxt := Real.cos dxt
  let safe_denom := if |cos_dxt| < 1e-10 then
      (if cos_dxt ≥ 0 then (1e-10 : ℝ) else -(1e-10 : ℝ))
    else cos_dxt
  let cos_d13_over_cos_xt := rustClamp (Real.cos d13 / safe_denom) (-1) 1
  let dat_abs := Real.arccos cos_d13_over_cos_xt
  let sign := if Real.cos (bearing_13 - bearing_12) ≥ 0 then (1 : ℝ) else -1
  let along_track := sign * dat_abs * EARTH_RADIUS_KM
  (cross_track, along_track)

/-- The `unwrap_longitude` from `scout.rs`.  The two `while` loops subtract or add
360 until `delta ∈ [-180, 180]`; the first runs `⌈(delta-180)/360⌉` times when
`delta > 180` (after which the second is a no-op), and symmetrically for the
second, which is the closed form used here. -/
noncomputable def unwrap_longitude (lon ref_lon : ℝ) : ℝ :=
  let delta := lon - ref_lon
  let delta1 := if delta > 180 then delta - 360 * ⌈(delta - 180) / 360⌉ else delta
  let delta2 := if delta1 < -180 then delta1 - 360 * ⌊(delta1 + 180) / 360⌋ else delta1
  ref_lon + delta2

/-- The `interpolate_dateline_crossing` from `scout.rs`. -/
noncomputable def interpolate_dateline_crossing (lat1 lon1 lat2 lon2 : ℝ) : ℝ × ℝ :=
  let lon2_unwrapped := unwrap_longitude lon2 lon1
  let crossing_lon := if lon2_unwrapped > lon1 then (180 : ℝ) else -180
  let t := (crossing_lon - lon1) / (lon2_unwrapped - lon1)
  (lat1 + t * (lat2 - lat1), crossing_lon)

/-- The `distance_to_line_segment_internal` from `scout.rs`. -/
noncomputable def distance_to_line_segment_internal
    (lat_pt lon_pt lat1 lon1 lat2 lon2 : ℝ) : ℝ :=
  let cd := cross_track_distance lat_pt lon_pt lat1 lon1 lat2 lon2
  let segment_length := haversine_distance lat1 lon1 lat2 lon2
  if cd.2 < 0 then haversine_distance lat_pt lon_pt lat1 lon1
  else if cd.2 > segment_length then haversine_distance lat_pt lon_pt lat2 lon2
  else cd.1

/-- The `distance_to_line_segment` from `scout.rs` (dateline splitting). -/
noncomputable def distance_to_line_segment
    (lat_pt lon_pt lat1 lon1 lat2 lon2 : ℝ) : ℝ :=
  if |lon2 - lon1| > 180 then
    let cross := interpolate_dateline_crossing lat1 lon1 lat2 lon2
    let cross_lon2 := if cross.2 = 180 then (-180 : ℝ) else 180
    min (distance_to_line_segment_internal lat_pt lon_pt lat1 lon1 cross.1 cross.2)
      (distance_to_line_segment_internal lat_pt lon_pt cross.1 cross_lon2 lat2 lon2)
  else
    distance_to_line_segment_internal lat_pt lon_pt lat1 lon1 lat2 lon2

/-- The `distance_to_polyline` from `scout.rs`; `f64::INFINITY` (returned for an
empty polyline and used as the fold seed) is modeled as `⊤ : EReal`. -/
noncomputable def distance_to_polyline (city_lat city_lon : ℝ)
    (line_points : List (ℝ × ℝ)) : EReal :=
  if line_points.isEmpty then ⊤
  else if line_points.length = 1 then
    ((haversine_distance city_lat city_lon
      (line_points.getD 0 (0, 0)).1 (line_points.getD 0 (0, 0)).2 : ℝ) : EReal)
  else
    (List.range (line_points.length - 1)).foldl
      (fun m i =>
        min m ((distance_to_line_segment city_lat city_lon
          (line_points.getD i (0, 0)).1 (line_points.getD i (0, 0)).2
          (line_points.getD (i + 1) (0, 0)).1
          (line_points.getD (i + 1) (0, 0)).2 : ℝ) : EReal))
      ⊤

/-- The `LineBoundingBox` struct from `scout.rs`; the min/max folds seed with
`±INFINITY`, modeled with `⊤`/`⊥ : EReal`. -/
structure LineBoundingBox where
  min_lat : EReal
  max_lat : EReal
  min_lon : EReal
  max_lon : EReal
  buffer_deg : ℝ

/-- The `LineBoundingBox::from_points` from `scout.rs`. -/
noncomputable def LineBoundingBox.from_points (points : List (ℝ × ℝ))
    (buffer_km : ℝ) : LineBoundingBox :=
  if points.isEmpty then
    ⟨((-90 : ℝ) : EReal), ((90 : ℝ) : EReal), ((-180 : ℝ) : EReal),
     ((180 : ℝ) : EReal), 0⟩
  else
    ⟨points.foldl (fun m p => min m ((p.1 : EReal))) ⊤,
     points.foldl (fun m p => max m ((p.1 : EReal))) ⊥,
     points.foldl (fun m p => min m ((p.2 : EReal))) ⊤,
     points.foldl (fun m p => max m ((p.2 : EReal))) ⊥,
     buffer_km / 111.32⟩

/-- The `LineBoundingBox::might_contain` from `scout.rs`. -/
noncomputable def LineBoundingBox.might_contain (bbox : LineBoundingBox)
    (city_lat city_lon : ℝ) : Bool :=
  let lat_in_range :=
    decide ((city_lat : EReal) ≥ bbox.min_lat - ((bbox.buffer_deg : ℝ) : EReal)) &&
    decide ((city_lat : EReal) ≤ bbox.max_lat + ((bbox.buffer_deg : ℝ) : EReal))
  if !lat_in_range then false
  else if bbox.min_lon > bbox.max_lon then
    decide ((city_lon : EReal) ≥ bbox.min_lon - ((bbox.buffer_deg : ℝ) : EReal)) ||
    decide ((city_lon : EReal) ≤ bbox.max_lon + ((bbox.buffer_deg : ℝ) : EReal))
  else
    decide ((city_lon : EReal) ≥ bbox.min_lon - ((bbox.buffer_deg : ℝ) : EReal)) &&
    decide ((city_lon : EReal) ≤ bbox.max_lon + ((bbox.buffer_deg : ℝ) : EReal))

/-- The `CityData` struct from `scout.rs` (deserialized city input). -/
structure CityData where
  name : String
  country : String
  lat : ℝ
  lon : ℝ

/-- The `LineData` struct from `scout.rs` (deserialized line input). -/
structure LineData where
  planet : String
  angle : String
  rating : ℕ
  aspect : Option AspectType
  points : List (ℝ × ℝ)

/-- The `OptimizedLine` struct from `scout.rs` (the `centroid` field of the sibling
`SimplifiedLine` is not part of this struct). -/
structure OptimizedLine where
  planet : String
  angle : String
  rating : ℕ
  aspect : Option AspectType
  points : List (ℝ × ℝ)
  bbox : LineBoundingBox

/-- The `OptimizedLine::from_line_data` from `scout.rs`. -/
noncomputable def OptimizedLine.from_line_data (line : LineData)
    (max_distance_km : ℝ) : OptimizedLine :=
  ⟨line.planet, line.angle, line.rating, line.aspect, line.points,
   LineBoundingBox.from_points line.points max_distance_km⟩

/-- The per-city influence-gathering loop of `scout_cities_for_category`.
The influence is kept only when the bounding box check passes and the polyline
distance is within range; that guard forces the `EReal` distance to be finite,
so storing `.toReal` is exact. -/
noncomputable def city_influences_for (city : CityData)
    (optimized_lines : List OptimizedLine) (config : ScoringConfig) :
    CityInfluenceSet :=
  let influences := optimized_lines.filterMap (fun line =>
    if !(line.bbox.might_contain city.lat city.lon) then none
    else
      let distance := distance_to_polyline city.lat city.lon line.points
      if distance ≤ ((config.max_distance_km : ℝ) : EReal) then
        some ⟨line.planet, line.angle, line.rating, line.aspect, distance.toReal⟩
      else none)
  ⟨city.name, city.country, city.lat, city.lon, influences⟩

/-- The `scout_cities_for_category` from `scout.rs`, on well-typed inputs.  The
JSON (de)serialization at the WASM boundary is the only fallible step in the
source and cannot fail on well-typed values; note the body performs no
validation of the city list. -/
noncomputable def scout_cities_for_category (cities : List CityData)
    (lines : List LineData) (category : LifeCategory) (sort_mode : SortMode)
    (config : ScoringConfig) : Except String (List CityRanking) :=
  let optimized_lines := lines.map
    (fun l => OptimizedLine.from_line_data l config.max_distance_km)
  let city_influence_sets := cities.map
    (fun city => city_influences_for city optimized_lines config)
  Except.ok (rank_cities_by_category city_influence_sets category config sort_mode)

/-- C7 (amended): `scout_cities_for_category` performs no empty-city-list
validation: for an empty city list (and any lines, category, sort mode and
config) it returns `Ok` with an empty ranking vector, not an error. -/
theorem scout_empty_cities_ok (lines : List LineData) (category : LifeCategory)
    (sort_mode : SortMode) (config : ScoringConfig) :
    scout_cities_for_category [] lines category sort_mode config =
      Except.ok ([] : List CityRanking) := by
  simp only [scout_cities_for_category, List.map_nil, rank_cities_by_category,
    List.filterMap_nil]
  cases sort_mode <;> simp

/-- Counterexample to the original C7: a concrete scout call with an empty
city list returns `Ok []`, not a typed invalid-input error. -/
theorem scout_empty_cities_no_error :
    scout_cities_for_category [] [] LifeCategory.Career SortMode.BenefitFirst
      ScoringConfig.balanced = Except.ok ([] : List CityRanking) := by
  simp only [scout_cities_for_category, List.map_nil, rank_cities_by_category,
    List.filterMap_nil]
  simp

/- Section: witnesses for the hypothesized claim theorems -/

/-- Witness for C1 at a concrete city and the balanced config. -/
theorem city_score_bounds_witness :
    (0 ≤ (calculate_city_score ⟨"A", "B", 0, 0, []⟩
        ⟨KernelType.Gaussian, 180, 500, 0.3⟩).benefit_score ∧
      (calculate_city_score ⟨"A", "B", 0, 0, []⟩
        ⟨KernelType.Gaussian, 180, 500, 0.3⟩).benefit_score ≤ 100) ∧
    (0 ≤ (calculate_city_score ⟨"A", "B", 0, 0, []⟩
        ⟨KernelType.Gaussian, 180, 500, 0.3⟩).intensity_score ∧
      (calculate_city_score ⟨"A", "B", 0, 0, []⟩
        ⟨KernelType.Gaussian, 180, 500, 0.3⟩).intensity_score ≤ 100) ∧
    (0 ≤ (calculate_city_score ⟨"A", "B", 0, 0, []⟩
        ⟨KernelType.Gaussian, 180, 500, 0.3⟩).volatility_score ∧
      (calculate_city_score ⟨"A", "B", 0, 0, []⟩
        ⟨KernelType.Gaussian, 180, 500, 0.3⟩).volatility_score ≤ 100) ∧
    (calculate_city_score ⟨"A", "B", 0, 0, []⟩
        ⟨KernelType.Gaussian, 180, 500, 0.3⟩).benefit_score
      = 50 + benefit_score_raw ⟨"A", "B", 0, 0, []⟩
        ⟨KernelType.Gaussian, 180, 500, 0.3⟩ * 10.5 ∧
    (calculate_city_score ⟨"A", "B", 0, 0, []⟩
        ⟨KernelType.Gaussian, 180, 500, 0.3⟩).intensity_score
      = intensity_score_raw ⟨"A", "B", 0, 0, []⟩
        ⟨KernelType.Gaussian, 180, 500, 0.3⟩ * 21 ∧
    (calculate_city_score ⟨"A", "B", 0, 0, []⟩
        ⟨KernelType.Gaussian, 180, 500, 0.3⟩).volatility_score
      = volatility_raw ⟨"A", "B", 0, 0, []⟩
        ⟨KernelType.Gaussian, 180, 500, 0.3⟩ * 42 :=
  city_score_bounds ⟨"A", "B", 0, 0, []⟩ ⟨KernelType.Gaussian, 180, 500, 0.3⟩
    (by simp) (by simp) (by norm_num)

/-- Witness for C3 at June 2024. -/
theorem delta_t_nonneg_witness : 0 ≤ calculate_delta_t 2024 6 :=
  delta_t_nonneg_from_1902 2024 6 (by norm_num) (by norm_num) (by norm_num)

/-- Witness for C5 at 15 March 2000. -/
theorem roundtrip_witness :
    jd_to_calendar (to_julian_date 2000 3 15 12 0 0) = (2000, 3, 15) :=
  roundtrip 2000 3 15 (by norm_num) (by norm_num) (by norm_num) (by norm_num)
    (by norm_num) (by norm_num [daysInMonth])

/-- Witness for C8 on a two-point polyline (returned unchanged). -/
theorem simplify_polyline_spec_witness :
    ([((0 : ℝ), (0 : ℝ)), ((1 : ℝ), (1 : ℝ))] : List (ℝ × ℝ)).length ≤
      ([((0 : ℝ), (0 : ℝ)), ((1 : ℝ), (1 : ℝ))] : List (ℝ × ℝ)).length ∧
    ([((0 : ℝ), (0 : ℝ)), ((1 : ℝ), (1 : ℝ))] : List (ℝ × ℝ)).head? =
      ([((0 : ℝ), (0 : ℝ)), ((1 : ℝ), (1 : ℝ))] : List (ℝ × ℝ)).head? ∧
    ([((0 : ℝ), (0 : ℝ)), ((1 : ℝ), (1 : ℝ))] : List (ℝ × ℝ)).getLast? =
      ([((0 : ℝ), (0 : ℝ)), ((1 : ℝ), (1 : ℝ))] : List (ℝ × ℝ)).getLast? ∧
    (2 ≤ ([((0 : ℝ), (0 : ℝ)), ((1 : ℝ), (1 : ℝ))] : List (ℝ × ℝ)).length →
      2 ≤ ([((0 : ℝ), (0 : ℝ)), ((1 : ℝ), (1 : ℝ))] : List (ℝ × ℝ)).length) :=
  (simplify_polyline_spec 1 [((0 : ℝ), (0 : ℝ)), ((1 : ℝ), (1 : ℝ))] 0).1
    [((0 : ℝ), (0 : ℝ)), ((1 : ℝ), (1 : ℝ))] (by simp [simplify_polyline])

/-- Witness for C10: a city with no influences at all is omitted. -/
theorem rank_cities_omits_irrelevant_witness :
    rank_cities_by_category ([] ++ ⟨"A", "B", 0, 0, []⟩ :: [])
        LifeCategory.Career ⟨KernelType.Gaussian, 180, 500, 0.3⟩
        SortMode.BenefitFirst =
      rank_cities_by_category ([] ++ []) LifeCategory.Career
        ⟨KernelType.Gaussian, 180, 500, 0.3⟩ SortMode.BenefitFirst :=
  rank_cities_omits_irrelevant [] [] ⟨"A", "B", 0, 0, []⟩ LifeCategory.Career
    ⟨KernelType.Gaussian, 180, 500, 0.3⟩ SortMode.BenefitFirst rfl
